import Mathlib

/-!
# Window / VulkanContext / Engine life cycle

A shallow embedding of `src/core/window.cpp`, `src/rendering/vulkan_context.cpp`
and `src/core/engine.cpp`.

* A handle field (`GLFWwindow*`, `VkInstance`, ...) is an `Option Handle`:
  `none` is `nullptr` / `VK_NULL_HANDLE`, `some h` a live handle.  A create call
  of the platform either fails (`none`, the output handle is left as it was) or
  yields a non-null handle.
* The windowing library and the graphics API are a `Platform`: the answers they
  give to the calls the code makes.
* Every member function returns, next to its result and the new object state,
  the list of state-changing platform calls it issued, in order (`Call`).
* A member function that can leave its body through `std::optional::value()`
  on an empty optional, or by handing a null device to the API, returns an
  `Option`; `none` stands for "no defined return".
-/

namespace ct

/-- A non-null platform handle. -/
abbrev Handle := Nat

/-- The address of a `Window` object (the value of `this`). -/
abbrev Addr := Nat

/-- `static_cast<int>` of a `uint32_t`. -/
def toInt32 (n : Nat) : Int :=
  if n % 2 ^ 32 < 2 ^ 31 then ((n % 2 ^ 32 : Nat) : Int) else ((n % 2 ^ 32 : Nat) : Int) - 2 ^ 32

/-- `static_cast<uint32_t>` of an `int`. -/
def toUInt32 (i : Int) : Nat := (i % 2 ^ 32).toNat

/-! ## Configuration records -/

/-- `struct WindowConfig` (window.h). -/
structure WindowConfig where
  title : String := "Cellular Threshold"
  width : Nat := 1280
  height : Nat := 720
  resizable : Bool := true
  fullscreen : Bool := false
  vsync : Bool := true
deriving DecidableEq, Repr

/-- `VK_MAKE_VERSION(major, minor, patch)`. -/
def VK_MAKE_VERSION (major minor patch : Nat) : Nat :=
  (major <<< 22) ||| (minor <<< 12) ||| patch

/-- `struct VulkanContextConfig` (vulkan_context.h). -/
structure VulkanContextConfig where
  applicationName : String := "Cellular Threshold"
  applicationVersion : Nat := VK_MAKE_VERSION 0 1 0
  enableValidation : Bool := true
deriving DecidableEq, Repr

/-- `struct EngineConfig` (engine.h). -/
structure EngineConfig where
  window : WindowConfig := {}
  applicationName : String := "Cellular Threshold"
  enableValidation : Bool := true
deriving DecidableEq, Repr

/-! ## Graphics API data -/

/-- `struct QueueFamilyIndices` (vulkan_context.h). -/
structure QueueFamilyIndices where
  graphicsFamily : Option Nat := none
  presentFamily : Option Nat := none
deriving DecidableEq, Repr

/-- `QueueFamilyIndices::isComplete`. -/
def QueueFamilyIndices.isComplete (q : QueueFamilyIndices) : Bool :=
  q.graphicsFamily.isSome && q.presentFamily.isSome

/-- `VK_QUEUE_GRAPHICS_BIT`. -/
def VK_QUEUE_GRAPHICS_BIT : Nat := 1

/-- One entry of `vkGetPhysicalDeviceQueueFamilyProperties`, together with the
answer of `vkGetPhysicalDeviceSurfaceSupportKHR` for that family and the
context's surface. -/
structure QueueFamilyProperties where
  queueFlags : Nat
  presentSupport : Bool
deriving DecidableEq, Repr

/-- A `VkPhysicalDevice`: the handle stands for the device it names, with what
the API reports about it. -/
structure PhysicalDevice where
  handle : Handle
  deviceName : String
  queueFamilies : List QueueFamilyProperties
  extensions : List String
deriving DecidableEq, Repr

/-- The fields of `VkInstanceCreateInfo` (and of its `VkApplicationInfo`) that
`createInstance` fills in. -/
structure InstanceCreateInfo where
  applicationName : String
  applicationVersion : Nat
  engineName : String
  engineVersion : Nat
  enabledExtensions : List String
  enabledLayers : List String
  debugMessengerChained : Bool
deriving DecidableEq, Repr

/-- `VkDeviceQueueCreateInfo`. -/
structure DeviceQueueCreateInfo where
  queueFamilyIndex : Nat
  queueCount : Nat
deriving DecidableEq, Repr

/-- The fields of `VkDeviceCreateInfo` that `createLogicalDevice` fills in. -/
structure DeviceCreateInfo where
  queueCreateInfos : List DeviceQueueCreateInfo
  enabledExtensions : List String
  enabledLayers : List String
deriving DecidableEq, Repr

/-! ## The platform -/

/-- The answers of the windowing library and of the graphics API. -/
structure Platform where
  glfwInit : Bool
  glfwVulkanSupported : Bool
  /-- `glfwGetVideoMode (glfwGetPrimaryMonitor ())`: width and height. -/
  primaryVideoMode : Int × Int
  /-- `glfwCreateWindow width height title monitor`; the flag tells whether a
  monitor was passed. -/
  glfwCreateWindow : Int → Int → String → Bool → Option Handle
  glfwGetFramebufferSize : Handle → Int × Int
  glfwGetRequiredInstanceExtensions : List String
  vkEnumerateInstanceLayerProperties : List String
  vkCreateInstance : InstanceCreateInfo → Option Handle
  /-- Whether `vkGetInstanceProcAddr instance name` is non-null. -/
  vkGetInstanceProcAddr : Option Handle → String → Bool
  vkCreateDebugUtilsMessengerEXT : Option Handle → Option Handle
  /-- `glfwCreateWindowSurface instance window`. -/
  glfwCreateWindowSurface : Option Handle → Option Handle → Option Handle
  vkEnumeratePhysicalDevices : Option Handle → List PhysicalDevice
  vkCreateDevice : PhysicalDevice → DeviceCreateInfo → Option Handle
  /-- `vkGetDeviceQueue device family index`. -/
  vkGetDeviceQueue : Handle → Nat → Nat → Handle

/-- A state-changing call made to the platform, with its arguments and, for a
create call, what it yielded. -/
inductive Call where
  | glfwInit (ok : Bool)
  | glfwTerminate
  | glfwWindowHint (hint value : Nat)
  | glfwCreateWindow (width height : Int) (title : String) (onMonitor : Bool)
      (result : Option Handle)
  | glfwSetWindowUserPointer (window : Handle) (pointer : Addr)
  | glfwSetFramebufferSizeCallback (window : Handle)
  | glfwDestroyWindow (window : Handle)
  | vkCreateInstance (info : InstanceCreateInfo) (result : Option Handle)
  /-- The member `createDebugUtilsMessengerEXT`: `resolved` tells whether the
  entry point was found, `result` what the driver yielded. -/
  | createDebugUtilsMessengerEXT (inst : Option Handle) (resolved : Bool)
      (result : Option Handle)
  /-- The member `destroyDebugUtilsMessengerEXT`: `resolved` tells whether the
  entry point was found, so that the call went on to the driver. -/
  | destroyDebugUtilsMessengerEXT (inst : Option Handle) (messenger : Handle)
      (resolved : Bool)
  | glfwCreateWindowSurface (inst : Option Handle) (window : Option Handle)
      (result : Option Handle)
  | vkCreateDevice (physicalDevice : PhysicalDevice) (info : DeviceCreateInfo)
      (result : Option Handle)
  | vkGetDeviceQueue (device : Handle) (family index : Nat)
  | vkDestroyDevice (device : Handle)
  | vkDestroySurfaceKHR (inst : Option Handle) (surface : Handle)
  | vkDestroyInstance (inst : Handle)
  | vkDeviceWaitIdle (device : Handle)
  | glfwPollEvents
deriving DecidableEq, Repr

/-- What a `bool` member function does: its return value, the object
afterwards, the platform calls it issued. -/
structure Step (σ : Type) where
  ret : Bool
  state : σ
  calls : List Call
deriving DecidableEq, Repr

/-- What a `void` member function does: the object afterwards and the platform
calls it issued. -/
structure Effect (σ : Type) where
  state : σ
  calls : List Call
deriving DecidableEq, Repr

/-! ## Window (window.cpp) -/

/-- The data members of `class Window`; the defaults are the in-class
initialisers, so `({} : Window)` is a freshly constructed window. -/
structure Window where
  m_window : Option Handle := none
  m_width : Nat := 0
  m_height : Nat := 0
  m_framebufferResized : Bool := false
deriving DecidableEq, Repr

def GLFW_CLIENT_API : Nat := 0x00022001
def GLFW_NO_API : Nat := 0
def GLFW_RESIZABLE : Nat := 0x00020003
def GLFW_TRUE : Nat := 1
def GLFW_FALSE : Nat := 0

/-- `Window::initialize`; `self` is the address of the object. -/
def Window.initialize (P : Platform) (self : Addr) (config : WindowConfig) (w : Window) :
    Step Window :=
  if !P.glfwInit then
    ⟨false, w, [.glfwInit false]⟩
  else if !P.glfwVulkanSupported then
    ⟨false, w, [.glfwInit true, .glfwTerminate]⟩
  else
    let hints : List Call :=
      [.glfwInit true, .glfwWindowHint GLFW_CLIENT_API GLFW_NO_API,
        .glfwWindowHint GLFW_RESIZABLE (if config.resizable then GLFW_TRUE else GLFW_FALSE)]
    let windowWidth : Int :=
      if config.fullscreen then P.primaryVideoMode.1 else toInt32 config.width
    let windowHeight : Int :=
      if config.fullscreen then P.primaryVideoMode.2 else toInt32 config.height
    let created := P.glfwCreateWindow windowWidth windowHeight config.title config.fullscreen
    let create : Call :=
      .glfwCreateWindow windowWidth windowHeight config.title config.fullscreen created
    match created with
    | none =>
      ⟨false, { w with m_window := none }, hints ++ [create, .glfwTerminate]⟩
    | some h =>
      let fb := P.glfwGetFramebufferSize h
      ⟨true, { w with m_window := some h, m_width := toUInt32 fb.1, m_height := toUInt32 fb.2 },
        hints ++ [create, .glfwSetWindowUserPointer h self, .glfwSetFramebufferSizeCallback h]⟩

/-- `Window::shutdown`. -/
def Window.shutdown (w : Window) : Effect Window :=
  match w.m_window with
  | some h =>
    ⟨{ m_window := none, m_width := 0, m_height := 0, m_framebufferResized := false },
      [.glfwDestroyWindow h, .glfwTerminate]⟩
  | none =>
    ⟨{ w with m_width := 0, m_height := 0, m_framebufferResized := false }, []⟩

/-- The outcome of a move: the destination (`this`) and the moved-from object
afterwards, and the platform calls issued. -/
structure Moved where
  dst : Window
  src : Window
  calls : List Call
deriving DecidableEq, Repr

/-- The update of the user pointer at the end of both move operations. -/
def Window.repoint (self : Addr) (h : Option Handle) : List Call :=
  match h with
  | some h => [.glfwSetWindowUserPointer h self]
  | none => []

/-- `Window::Window(Window&& other)`; `self` is the address of the new object. -/
def Window.moveConstruct (self : Addr) (other : Window) : Moved :=
  { dst := { m_window := other.m_window, m_width := other.m_width, m_height := other.m_height,
             m_framebufferResized := other.m_framebufferResized }
    src := { m_window := none, m_width := 0, m_height := 0, m_framebufferResized := false }
    calls := Window.repoint self other.m_window }

/-- `Window::operator=(Window&& other)`; `self` and `otherAddr` are the addresses
of the two objects (equal on self-assignment, when `this` and `other` are one
object). -/
def Window.moveAssign (self otherAddr : Addr) (this other : Window) : Moved :=
  if self ≠ otherAddr then
    let down := Window.shutdown this
    { dst := { m_window := other.m_window, m_width := other.m_width,
               m_height := other.m_height, m_framebufferResized := other.m_framebufferResized }
      src := { m_window := none, m_width := 0, m_height := 0, m_framebufferResized := false }
      calls := down.calls ++ Window.repoint self other.m_window }
  else
    { dst := this, src := other, calls := [] }

/-! ## VulkanContext (vulkan_context.cpp) -/

/-- The data members of `class VulkanContext`; the defaults are the in-class
initialisers, so `({} : VulkanContext)` is a freshly constructed context. -/
structure VulkanContext where
  m_instance : Option Handle := none
  m_debugMessenger : Option Handle := none
  m_surface : Option Handle := none
  m_physicalDevice : Option PhysicalDevice := none
  m_device : Option Handle := none
  m_graphicsQueue : Option Handle := none
  m_presentQueue : Option Handle := none
  m_queueFamilyIndices : QueueFamilyIndices := {}
  m_validationEnabled : Bool := false
deriving DecidableEq, Repr

/-- The constant member `m_validationLayers`. -/
def m_validationLayers : List String := ["VK_LAYER_KHRONOS_validation"]

/-- `VK_KHR_SWAPCHAIN_EXTENSION_NAME`. -/
def VK_KHR_SWAPCHAIN_EXTENSION_NAME : String := "VK_KHR_swapchain"

/-- `VK_EXT_DEBUG_UTILS_EXTENSION_NAME`. -/
def VK_EXT_DEBUG_UTILS_EXTENSION_NAME : String := "VK_EXT_debug_utils"

/-- The constant member `m_deviceExtensions`. -/
def m_deviceExtensions : List String := [VK_KHR_SWAPCHAIN_EXTENSION_NAME]

/-- `VulkanContext::checkValidationLayerSupport`: every wanted layer is found
among the available ones (the inner loop stops at the first match, the outer
one returns false at the first layer not found). -/
def checkValidationLayerSupport (P : Platform) : Bool :=
  m_validationLayers.all fun layerName =>
    P.vkEnumerateInstanceLayerProperties.any fun available => layerName == available

/-- `VulkanContext::getRequiredExtensions`. -/
def VulkanContext.getRequiredExtensions (P : Platform) (s : VulkanContext) : List String :=
  if s.m_validationEnabled then
    P.glfwGetRequiredInstanceExtensions ++ [VK_EXT_DEBUG_UTILS_EXTENSION_NAME]
  else
    P.glfwGetRequiredInstanceExtensions

/-- The `VkInstanceCreateInfo` that `createInstance` builds. -/
def VulkanContext.instanceCreateInfo (P : Platform) (config : VulkanContextConfig)
    (s : VulkanContext) : InstanceCreateInfo :=
  { applicationName := config.applicationName
    applicationVersion := config.applicationVersion
    engineName := "Cellular Threshold Engine"
    engineVersion := VK_MAKE_VERSION 0 1 0
    enabledExtensions := s.getRequiredExtensions P
    enabledLayers := if s.m_validationEnabled then m_validationLayers else []
    debugMessengerChained := s.m_validationEnabled }

/-- `VulkanContext::createInstance`. -/
def VulkanContext.createInstance (P : Platform) (config : VulkanContextConfig)
    (s : VulkanContext) : Step VulkanContext :=
  let s1 : VulkanContext :=
    if s.m_validationEnabled && !checkValidationLayerSupport P then
      { s with m_validationEnabled := false }
    else s
  let createInfo := s1.instanceCreateInfo P config
  match P.vkCreateInstance createInfo with
  | none => ⟨false, s1, [.vkCreateInstance createInfo none]⟩
  | some h => ⟨true, { s1 with m_instance := some h }, [.vkCreateInstance createInfo (some h)]⟩

/-- `VulkanContext::createDebugUtilsMessengerEXT`: the driver's entry point is
looked up and, when found, called. -/
def createDebugUtilsMessengerEXT (P : Platform) (inst : Option Handle) : Option Handle × Call :=
  if P.vkGetInstanceProcAddr inst "vkCreateDebugUtilsMessengerEXT" then
    (P.vkCreateDebugUtilsMessengerEXT inst,
      .createDebugUtilsMessengerEXT inst true (P.vkCreateDebugUtilsMessengerEXT inst))
  else
    (none, .createDebugUtilsMessengerEXT inst false none)

/-- `VulkanContext::destroyDebugUtilsMessengerEXT`: the driver's entry point is
looked up and, when found, called. -/
def destroyDebugUtilsMessengerEXT (P : Platform) (inst : Option Handle) (messenger : Handle) :
    Call :=
  .destroyDebugUtilsMessengerEXT inst messenger
    (P.vkGetInstanceProcAddr inst "vkDestroyDebugUtilsMessengerEXT")

/-- `VulkanContext::setupDebugMessenger`. -/
def VulkanContext.setupDebugMessenger (P : Platform) (s : VulkanContext) : Step VulkanContext :=
  match createDebugUtilsMessengerEXT P s.m_instance with
  | (none, call) => ⟨false, s, [call]⟩
  | (some m, call) => ⟨true, { s with m_debugMessenger := some m }, [call]⟩

/-- `VulkanContext::createSurface`. -/
def VulkanContext.createSurface (P : Platform) (window : Window) (s : VulkanContext) :
    Step VulkanContext :=
  match P.glfwCreateWindowSurface s.m_instance window.m_window with
  | none => ⟨false, s, [.glfwCreateWindowSurface s.m_instance window.m_window none]⟩
  | some h =>
    ⟨true, { s with m_surface := some h },
      [.glfwCreateWindowSurface s.m_instance window.m_window (some h)]⟩

/-- The loop of `VulkanContext::findQueueFamilies`, from family index `i` on. -/
def findQueueFamiliesLoop :
    List QueueFamilyProperties → Nat → QueueFamilyIndices → QueueFamilyIndices
  | [], _, indices => indices
  | family :: rest, i, indices =>
    let indices1 : QueueFamilyIndices :=
      if family.queueFlags &&& VK_QUEUE_GRAPHICS_BIT ≠ 0 then
        { indices with graphicsFamily := some i }
      else indices
    let indices2 : QueueFamilyIndices :=
      if family.presentSupport then { indices1 with presentFamily := some i } else indices1
    if indices2.isComplete then indices2 else findQueueFamiliesLoop rest (i + 1) indices2

/-- `VulkanContext::findQueueFamilies`. -/
def findQueueFamilies (device : PhysicalDevice) : QueueFamilyIndices :=
  findQueueFamiliesLoop device.queueFamilies 0 {}

/-- `std::set<std::string>::erase (key)` on a set kept as a list. -/
def eraseKey (required : List String) (key : String) : List String :=
  required.filter fun r => r != key

/-- `VulkanContext::isDeviceSuitable`. -/
def isDeviceSuitable (device : PhysicalDevice) : Bool :=
  let indices := findQueueFamilies device
  if !indices.isComplete then false
  else
    let requiredExtensions : List String := m_deviceExtensions.dedup
    (device.extensions.foldl eraseKey requiredExtensions).isEmpty

/-- The loop of `VulkanContext::pickPhysicalDevice`: the first suitable device
is stored and the loop left. -/
def pickPhysicalDeviceLoop : List PhysicalDevice → VulkanContext → VulkanContext
  | [], s => s
  | device :: rest, s =>
    if isDeviceSuitable device then { s with m_physicalDevice := some device }
    else pickPhysicalDeviceLoop rest s

/-- `VulkanContext::pickPhysicalDevice`. -/
def VulkanContext.pickPhysicalDevice (P : Platform) (s : VulkanContext) : Step VulkanContext :=
  let devices := P.vkEnumeratePhysicalDevices s.m_instance
  if devices.length = 0 then ⟨false, s, []⟩
  else
    let s1 := pickPhysicalDeviceLoop devices s
    if s1.m_physicalDevice = none then ⟨false, s1, []⟩ else ⟨true, s1, []⟩

/-- The `std::set<uint32_t>` built from the two family indices, in iteration
(ascending) order. -/
def uniqueQueueFamilies (graphicsFamily presentFamily : Nat) : List Nat :=
  if graphicsFamily = presentFamily then [graphicsFamily]
  else if graphicsFamily < presentFamily then [graphicsFamily, presentFamily]
  else [presentFamily, graphicsFamily]

/-- The `VkDeviceCreateInfo` that `createLogicalDevice` builds. -/
def deviceCreateInfo (validationEnabled : Bool) (graphicsFamily presentFamily : Nat) :
    DeviceCreateInfo :=
  { queueCreateInfos :=
      (uniqueQueueFamilies graphicsFamily presentFamily).map fun queueFamily =>
        { queueFamilyIndex := queueFamily, queueCount := 1 }
    enabledExtensions := m_deviceExtensions
    enabledLayers := if validationEnabled then m_validationLayers else [] }

/-- `VulkanContext::createLogicalDevice`.  There is no defined return when the
physical device is null or when `value()` is taken of an empty family index. -/
def VulkanContext.createLogicalDevice (P : Platform) (s : VulkanContext) :
    Option (Step VulkanContext) :=
  match s.m_physicalDevice with
  | none => none
  | some physicalDevice =>
    let s1 : VulkanContext := { s with m_queueFamilyIndices := findQueueFamilies physicalDevice }
    match s1.m_queueFamilyIndices.graphicsFamily, s1.m_queueFamilyIndices.presentFamily with
    | some g, some p =>
      let createInfo := deviceCreateInfo s1.m_validationEnabled g p
      match P.vkCreateDevice physicalDevice createInfo with
      | none => some ⟨false, s1, [.vkCreateDevice physicalDevice createInfo none]⟩
      | some d =>
        some ⟨true,
          { s1 with m_device := some d
                    m_graphicsQueue := some (P.vkGetDeviceQueue d g 0)
                    m_presentQueue := some (P.vkGetDeviceQueue d p 0) },
          [.vkCreateDevice physicalDevice createInfo (some d),
            .vkGetDeviceQueue d g 0, .vkGetDeviceQueue d p 0]⟩
    | _, _ => none

/-- `VulkanContext::initialize`. -/
def VulkanContext.initialize (P : Platform) (config : VulkanContextConfig) (window : Window)
    (s : VulkanContext) : Option (Step VulkanContext) :=
  let s0 : VulkanContext := { s with m_validationEnabled := config.enableValidation }
  let r1 := s0.createInstance P config
  if !r1.ret then some ⟨false, r1.state, r1.calls⟩
  else
    let r2 : Step VulkanContext :=
      if r1.state.m_validationEnabled then r1.state.setupDebugMessenger P
      else ⟨true, r1.state, []⟩
    let r3 := r2.state.createSurface P window
    if !r3.ret then some ⟨false, r3.state, r1.calls ++ r2.calls ++ r3.calls⟩
    else
      let r4 := r3.state.pickPhysicalDevice P
      if !r4.ret then some ⟨false, r4.state, r1.calls ++ r2.calls ++ r3.calls ++ r4.calls⟩
      else
        match r4.state.createLogicalDevice P with
        | none => none
        | some r5 =>
          some ⟨r5.ret, r5.state, r1.calls ++ r2.calls ++ r3.calls ++ r4.calls ++ r5.calls⟩

/-- The block of `shutdown` for the logical device. -/
def VulkanContext.releaseDevice (s : VulkanContext) : Effect VulkanContext :=
  match s.m_device with
  | some d => ⟨{ s with m_device := none }, [.vkDestroyDevice d]⟩
  | none => ⟨s, []⟩

/-- The block of `shutdown` for the debug messenger. -/
def VulkanContext.releaseDebugMessenger (P : Platform) (s : VulkanContext) :
    Effect VulkanContext :=
  match s.m_debugMessenger with
  | some m =>
    ⟨{ s with m_debugMessenger := none }, [destroyDebugUtilsMessengerEXT P s.m_instance m]⟩
  | none => ⟨s, []⟩

/-- The block of `shutdown` for the surface. -/
def VulkanContext.releaseSurface (s : VulkanContext) : Effect VulkanContext :=
  match s.m_surface with
  | some f => ⟨{ s with m_surface := none }, [.vkDestroySurfaceKHR s.m_instance f]⟩
  | none => ⟨s, []⟩

/-- The block of `shutdown` for the instance. -/
def VulkanContext.releaseInstance (s : VulkanContext) : Effect VulkanContext :=
  match s.m_instance with
  | some i => ⟨{ s with m_instance := none }, [.vkDestroyInstance i]⟩
  | none => ⟨s, []⟩

/-- `VulkanContext::shutdown`: the four guarded blocks in source order, then
the three plain assignments. -/
def VulkanContext.shutdown (P : Platform) (s : VulkanContext) : Effect VulkanContext :=
  let e1 := s.releaseDevice
  let e2 := e1.state.releaseDebugMessenger P
  let e3 := e2.state.releaseSurface
  let e4 := e3.state.releaseInstance
  ⟨{ e4.state with m_physicalDevice := none, m_graphicsQueue := none, m_presentQueue := none },
    e1.calls ++ e2.calls ++ e3.calls ++ e4.calls⟩

/-- `VulkanContext::waitIdle`. -/
def VulkanContext.waitIdle (s : VulkanContext) : List Call :=
  match s.m_device with
  | some d => [.vkDeviceWaitIdle d]
  | none => []

/-! ## Engine (engine.cpp) -/

/-- The data members of `class Engine`; `({} : Engine)` is a freshly
constructed engine. -/
structure Engine where
  m_window : Window := {}
  m_vulkanContext : VulkanContext := {}
  m_running : Bool := false
  m_initialized : Bool := false
deriving DecidableEq, Repr

/-- `Engine::initialize`; `windowAddr` is the address of the member `m_window`. -/
def Engine.initialize (P : Platform) (windowAddr : Addr) (config : EngineConfig) (e : Engine) :
    Option (Step Engine) :=
  let rw := Window.initialize P windowAddr config.window e.m_window
  if !rw.ret then some ⟨false, { e with m_window := rw.state }, rw.calls⟩
  else
    let vulkanConfig : VulkanContextConfig :=
      { applicationName := config.applicationName, enableValidation := config.enableValidation }
    match VulkanContext.initialize P vulkanConfig rw.state e.m_vulkanContext with
    | none => none
    | some rv =>
      if !rv.ret then
        let down := rw.state.shutdown
        some ⟨false, { e with m_window := down.state, m_vulkanContext := rv.state },
          rw.calls ++ rv.calls ++ down.calls⟩
      else
        some ⟨true, { e with m_window := rw.state, m_vulkanContext := rv.state,
                             m_initialized := true },
          rw.calls ++ rv.calls⟩

/-- `Engine::shutdown`. -/
def Engine.shutdown (P : Platform) (e : Engine) : Effect Engine :=
  if !e.m_initialized then ⟨e, []⟩
  else
    let dv := e.m_vulkanContext.shutdown P
    let dw := e.m_window.shutdown
    ⟨{ m_window := dw.state, m_vulkanContext := dv.state, m_running := false,
       m_initialized := false },
      dv.calls ++ dw.calls⟩

/-! ## The windowing library's own state

What the GLFW reference says of the calls above: `glfwTerminate` destroys all
remaining windows, `glfwDestroyWindow` the one named, and the user pointer of a
window is the last one set for it. -/

/-- The library's state: whether it is initialised, and its live windows, each
with its user pointer. -/
structure Glfw where
  initialized : Bool := false
  windows : List (Handle × Option Addr) := []
deriving DecidableEq, Repr

/-- The effect of one call on the library's state. -/
def Glfw.apply (g : Glfw) : Call → Glfw
  | .glfwInit ok => if ok then { g with initialized := true } else g
  | .glfwTerminate => { initialized := false, windows := [] }
  | .glfwCreateWindow _ _ _ _ (some h) => { g with windows := (h, none) :: g.windows }
  | .glfwSetWindowUserPointer h p =>
    { g with windows := g.windows.map fun e => if e.1 = h then (h, some p) else e }
  | .glfwDestroyWindow h => { g with windows := g.windows.filter fun e => e.1 ≠ h }
  | _ => g

/-- The library's state after a sequence of calls. -/
def Glfw.run (g : Glfw) (calls : List Call) : Glfw := calls.foldl Glfw.apply g

/-- Whether `h` is a live window of the library. -/
def Glfw.isLive (g : Glfw) (h : Handle) : Bool := g.windows.any fun e => e.1 == h

/-- `glfwGetWindowUserPointer`. -/
def Glfw.userPointer (g : Glfw) (h : Handle) : Option Addr :=
  (g.windows.find? fun e => e.1 == h).bind Prod.snd

/-- `Window::framebufferResizeCallback`: the owner is found through the user
pointer of `window`; `heap` gives the `Window` object at each address. -/
def Window.framebufferResizeCallback (g : Glfw) (heap : Addr → Window) (window : Handle)
    (width height : Int) : Addr → Window :=
  match g.userPointer window with
  | some app => fun a =>
    if a = app then
      { heap app with m_framebufferResized := true, m_width := toUInt32 width,
                      m_height := toUInt32 height }
    else heap a
  | none => heap

/-! ## Concrete hosts used to evaluate the code -/

/-- A single-queue-family GPU with swapchain support. -/
def gpu0 : PhysicalDevice :=
  { handle := 7, deviceName := "gpu0",
    queueFamilies := [{ queueFlags := 1, presentSupport := true }],
    extensions := ["VK_KHR_swapchain"] }

/-- A host on which every call succeeds, with one capable device and no
validation layer installed. -/
def hostOneGpu : Platform :=
  { glfwInit := true
    glfwVulkanSupported := true
    primaryVideoMode := (1920, 1080)
    glfwCreateWindow := fun _ _ _ _ => some 10
    glfwGetFramebufferSize := fun _ => (1280, 720)
    glfwGetRequiredInstanceExtensions := ["VK_KHR_surface"]
    vkEnumerateInstanceLayerProperties := []
    vkCreateInstance := fun _ => some 1
    vkGetInstanceProcAddr := fun _ _ => true
    vkCreateDebugUtilsMessengerEXT := fun _ => some 2
    glfwCreateWindowSurface := fun _ _ => some 3
    vkEnumeratePhysicalDevices := fun _ => [gpu0]
    vkCreateDevice := fun _ _ => some 4
    vkGetDeviceQueue := fun _ family _ => 5 + family }

/-- The same host reporting no physical device at all. -/
def hostNoGpu : Platform :=
  { hostOneGpu with vkEnumeratePhysicalDevices := fun _ => [] }

/-- The same host with the validation layer installed. -/
def hostValidation : Platform :=
  { hostOneGpu with vkEnumerateInstanceLayerProperties := ["VK_LAYER_KHRONOS_validation"] }

/-- The same host handing out window handle 20. -/
def hostSecondWindow : Platform :=
  { hostOneGpu with glfwCreateWindow := fun _ _ _ _ => some 20 }

/-- A device that can draw but not present. -/
def gpuHeadless : PhysicalDevice :=
  { handle := 6, deviceName := "headless",
    queueFamilies := [{ queueFlags := 1, presentSupport := false }],
    extensions := ["VK_KHR_swapchain"] }

/-- The same host listing a device that cannot present before the capable one. -/
def hostTwoGpus : Platform :=
  { hostOneGpu with vkEnumeratePhysicalDevices := fun _ => [gpuHeadless, gpu0] }

/-- The window object after `Window::initialize` on `hostOneGpu`. -/
def openWindow : Window :=
  { m_window := some 10, m_width := 1280, m_height := 720, m_framebufferResized := false }

/-! ## Two open windows, one moved onto the other -/

/-- Window `a`, at address 1, opened on `hostOneGpu` (handle 10). -/
def windowA : Step Window := Window.initialize hostOneGpu 1 {} {}

/-- Window `b`, at address 2, opened next (handle 20). -/
def windowB : Step Window := Window.initialize hostSecondWindow 2 {} {}

/-- The windowing library after both windows were opened. -/
def glfwTwoWindows : Glfw := Glfw.run {} (windowA.calls ++ windowB.calls)

/-- The two objects in memory, after a resize of `b` to 800 x 600 was delivered. -/
def heapTwoWindows : Addr → Window :=
  Window.framebufferResizeCallback glfwTwoWindows
    (fun a => if a = 1 then windowA.state else if a = 2 then windowB.state else {}) 20 800 600

/-- The move assignment `a = std::move(b)`. -/
def moveBontoA : Moved := Window.moveAssign 1 2 (heapTwoWindows 1) (heapTwoWindows 2)

/-- The windowing library after the move assignment. -/
def glfwAfterMove : Glfw := glfwTwoWindows.run moveBontoA.calls

/-- The two objects in memory after the move assignment. -/
def heapAfterMove : Addr → Window :=
  fun a => if a = 1 then moveBontoA.dst else if a = 2 then moveBontoA.src else {}

/-! ## The teardown order, as the specification words it -/

/-- The owned sub-resources that `shutdown` destroys. -/
inductive Resource where
  | device
  | debugMessenger
  | surface
  | vkInstance
deriving DecidableEq, Repr

/-- The order of release the specification asks for: device, diagnostic hook,
surface, instance. -/
def teardownOrder : List Resource :=
  [.device, .debugMessenger, .surface, .vkInstance]

/-- Whether the context holds a non-null handle for the resource. -/
def VulkanContext.holds (s : VulkanContext) : Resource → Bool
  | .device => s.m_device.isSome
  | .debugMessenger => s.m_debugMessenger.isSome
  | .surface => s.m_surface.isSome
  | .vkInstance => s.m_instance.isSome

/-- The destroy call for a resource, with the handles the context holds for
it; none when the handle is null. -/
def VulkanContext.destroyCall (P : Platform) (s : VulkanContext) : Resource → Option Call
  | .device => s.m_device.map Call.vkDestroyDevice
  | .debugMessenger => s.m_debugMessenger.map (destroyDebugUtilsMessengerEXT P s.m_instance)
  | .surface => s.m_surface.map (Call.vkDestroySurfaceKHR s.m_instance)
  | .vkInstance => s.m_instance.map Call.vkDestroyInstance

/-- The resource a call destroys, with its handle, if it is a destroy call of
the graphics API. -/
def Call.destroys : Call → Option (Resource × Handle)
  | .vkDestroyDevice d => some (.device, d)
  | .destroyDebugUtilsMessengerEXT _ m _ => some (.debugMessenger, m)
  | .vkDestroySurfaceKHR _ f => some (.surface, f)
  | .vkDestroyInstance i => some (.vkInstance, i)
  | _ => none

/-- The resource a call creates, with its handle, if it is a successful create
call of the graphics API. -/
def Call.creates : Call → Option (Resource × Handle)
  | .vkCreateInstance _ (some i) => some (.vkInstance, i)
  | .createDebugUtilsMessengerEXT _ _ (some m) => some (.debugMessenger, m)
  | .glfwCreateWindowSurface _ _ (some f) => some (.surface, f)
  | .vkCreateDevice _ _ (some d) => some (.device, d)
  | _ => none

/-! ## The main loop (engine.cpp, window.cpp) -/

/-- What the windowing library reports while the main loop runs; `k` counts the
iterations of the loop from 0. -/
structure WindowEvents where
  /-- `glfwWindowShouldClose window` at the loop test before iteration `k`. -/
  glfwWindowShouldClose : Nat → Handle → Bool
  /-- The framebuffer sizes that `glfwPollEvents` hands to the resize callback
  of the engine's window in iteration `k`. -/
  framebufferResizes : Nat → List (Int × Int)

/-- `Window::shouldClose`. -/
def Window.shouldClose (E : WindowEvents) (k : Nat) (w : Window) : Bool :=
  match w.m_window with
  | some h => E.glfwWindowShouldClose k h
  | none => false

/-- `Window::pollEvents` for the engine's window, whose user pointer is the
window itself: the resize callback runs once for each resize delivered. -/
def Window.pollEvents (E : WindowEvents) (k : Nat) (w : Window) : Effect Window :=
  ⟨(E.framebufferResizes k).foldl
      (fun app size =>
        { app with m_framebufferResized := true, m_width := toUInt32 size.1,
                   m_height := toUInt32 size.2 }) w,
    [.glfwPollEvents]⟩

/-- `Window::wasResized`. -/
def Window.wasResized (w : Window) : Bool := w.m_framebufferResized

/-- `Window::resetResizeFlag`. -/
def Window.resetResizeFlag (w : Window) : Window := { w with m_framebufferResized := false }

/-- `Engine::tick`. -/
def Engine.tick (E : WindowEvents) (k : Nat) (e : Engine) : Effect Engine :=
  let polled := e.m_window.pollEvents E k
  if polled.state.wasResized then
    ⟨{ e with m_window := polled.state.resetResizeFlag }, polled.calls⟩
  else
    ⟨{ e with m_window := polled.state }, polled.calls⟩

/-- The `while` loop of `Engine::run` from iteration `k` on; `fuel` bounds the
number of loop tests, and there is no result when it runs out. -/
def Engine.runLoop (E : WindowEvents) : Nat → Nat → Engine → List Call → Option (Effect Engine)
  | 0, _, _, _ => none
  | fuel + 1, k, e, calls =>
    if e.m_running && !e.m_window.shouldClose E k then
      Engine.runLoop E fuel (k + 1) (e.tick E k).state (calls ++ (e.tick E k).calls)
    else some ⟨e, calls⟩

/-- `Engine::run`. -/
def Engine.run (E : WindowEvents) (fuel : Nat) (e : Engine) : Option (Effect Engine) :=
  if !e.m_initialized then some ⟨e, []⟩
  else
    match Engine.runLoop E fuel 0 { e with m_running := true } [] with
    | none => none
    | some looped => some ⟨looped.state, looped.calls ++ looped.state.m_vulkanContext.waitIdle⟩

/-- `Engine::isRunning`. -/
def Engine.isRunning (e : Engine) : Bool := e.m_running

/-- A window that asks to be closed at once. -/
def closeAtOnce : WindowEvents :=
  { glfwWindowShouldClose := fun _ _ => true, framebufferResizes := fun _ => [] }

/-- A window that is resized in the first two frames and asks to be closed
before the third. -/
def closeAfterTwoFrames : WindowEvents :=
  { glfwWindowShouldClose := fun k _ => decide (2 ≤ k)
    framebufferResizes := fun k => if k = 0 then [(800, 600)] else [(640, 480), (1024, 768)] }

/-! ## The debug callback (vulkan_context.cpp) -/

/-- The two output streams. -/
inductive OutStream where
  | cout
  | cerr
deriving DecidableEq, Repr

def VK_DEBUG_UTILS_MESSAGE_SEVERITY_VERBOSE_BIT_EXT : Int := 0x00000001
def VK_DEBUG_UTILS_MESSAGE_SEVERITY_INFO_BIT_EXT : Int := 0x00000010
def VK_DEBUG_UTILS_MESSAGE_SEVERITY_WARNING_BIT_EXT : Int := 0x00000100
def VK_DEBUG_UTILS_MESSAGE_SEVERITY_ERROR_BIT_EXT : Int := 0x00001000
def VK_FALSE : Nat := 0

/-- What `debugCallback` does: its return value and what it writes, in order,
each piece with the stream it goes to. -/
structure CallbackResult where
  ret : Nat
  written : List (OutStream × String)
deriving DecidableEq, Repr

/-- `VulkanContext::debugCallback`; `message` is `pCallbackData->pMessage`. -/
def debugCallback (messageSeverity : Int) (message : String) : CallbackResult :=
  let pre := "[Vulkan] "
  if messageSeverity ≥ VK_DEBUG_UTILS_MESSAGE_SEVERITY_ERROR_BIT_EXT then
    ⟨VK_FALSE, [(.cerr, pre), (.cerr, "ERROR: "), (.cerr, message), (.cerr, "\n")]⟩
  else if messageSeverity ≥ VK_DEBUG_UTILS_MESSAGE_SEVERITY_WARNING_BIT_EXT then
    ⟨VK_FALSE, [(.cerr, pre), (.cerr, "WARNING: "), (.cerr, message), (.cerr, "\n")]⟩
  else if messageSeverity ≥ VK_DEBUG_UTILS_MESSAGE_SEVERITY_INFO_BIT_EXT then
    ⟨VK_FALSE, [(.cout, pre), (.cout, "INFO: "), (.cout, message), (.cout, "\n")]⟩
  else
    ⟨VK_FALSE, [(.cout, pre), (.cout, "VERBOSE: "), (.cout, message), (.cout, "\n")]⟩

/-- The pieces of text that reached a stream, in order. -/
def piecesOn (stream : OutStream) (written : List (OutStream × String)) : List String :=
  (written.filter fun w => w.1 = stream).map Prod.snd

/-! ## std::set of family indices -/

/-- `std::set<uint32_t>::insert`, the set kept as an ascending list. -/
def stdSetInsert (x : Nat) : List Nat → List Nat
  | [] => [x]
  | y :: rest =>
    if x < y then x :: y :: rest
    else if x = y then y :: rest
    else y :: stdSetInsert x rest

/-! ## The resource chain, as the specification words it -/

/-- Each later resource exists only if the earlier ones do: a queue needs the
logical device, the logical device the physical device, the physical device the
surface, the surface and the debug messenger the instance. -/
def VulkanContext.chainInvariant (s : VulkanContext) : Bool :=
  ((s.m_graphicsQueue.isSome || s.m_presentQueue.isSome) → s.m_device.isSome) ∧
  (s.m_device.isSome → s.m_physicalDevice.isSome) ∧
  (s.m_physicalDevice.isSome → s.m_surface.isSome) ∧
  ((s.m_surface.isSome || s.m_debugMessenger.isSome) → s.m_instance.isSome)

/-- The states of a context reached from a fresh one by `initialize` and
`shutdown`, where `initialize` runs only on a fresh context or after a
`shutdown`.  The flag tells whether `initialize` has run since the last
`shutdown`. -/
inductive VulkanContext.Reachable : Bool → VulkanContext → Prop where
  | fresh : VulkanContext.Reachable false {}
  | afterShutdown (P : Platform) (b : Bool) (s : VulkanContext) :
      VulkanContext.Reachable b s → VulkanContext.Reachable false (s.shutdown P).state
  | afterInitialize (P : Platform) (config : VulkanContextConfig) (window : Window)
      (s : VulkanContext) (r : Step VulkanContext) :
      VulkanContext.Reachable false s → VulkanContext.initialize P config window s = some r →
      VulkanContext.Reachable true r.state

/-! # Theorems -/

/-! ## Window::initialize -/

/-- C10. `Window::initialize` on a fresh window returns false exactly when the
platform layer fails to initialise, reports no Vulkan support, or fails to
create the window (asked for with the configured size, or the primary monitor's
mode when fullscreen), and true otherwise; when it returns false the window is
still in its unset state; and when Vulkan is unsupported or the window cannot be
created, the last platform call before returning is `glfwTerminate`, which
leaves the library uninitialised with no window. -/
theorem Window.initialize_fresh (P : Platform) (self : Addr) (config : WindowConfig) :
    (( Window.initialize P self config {}).ret = false ↔
      (P.glfwInit = false ∨ P.glfwVulkanSupported = false ∨
        P.glfwCreateWindow
          (if config.fullscreen then P.primaryVideoMode.1 else toInt32 config.width)
          (if config.fullscreen then P.primaryVideoMode.2 else toInt32 config.height)
          config.title config.fullscreen = none)) ∧
    (( Window.initialize P self config {}).ret = false →
      ( Window.initialize P self config {}).state = {}) ∧
    (P.glfwInit = true → ( Window.initialize P self config {}).ret = false →
      ( Window.initialize P self config {}).calls.getLast? = some Call.glfwTerminate ∧
      ∀ g : Glfw, g.run ( Window.initialize P self config {}).calls = {}) ∧
    (P.glfwInit = false → ( Window.initialize P self config {}).calls = [Call.glfwInit false]) := by
  unfold Window.initialize
  cases hi : P.glfwInit <;> cases hv : P.glfwVulkanSupported <;>
    simp [Glfw.run, Glfw.apply]
  split
  · simp_all [Glfw.run, Glfw.apply]
  · simp_all [Glfw.run, Glfw.apply]

/-! ## Device suitability and selection -/

/-- The scan of the queue families ends complete exactly when each capability
was already recorded or is offered by one of the families still to scan. -/
theorem findQueueFamiliesLoop_isComplete (families : List QueueFamilyProperties) :
    ∀ (i : Nat) (indices : QueueFamilyIndices),
      (findQueueFamiliesLoop families i indices).isComplete = true ↔
        (indices.graphicsFamily.isSome = true ∨
            ∃ f ∈ families, f.queueFlags &&& VK_QUEUE_GRAPHICS_BIT ≠ 0) ∧
          (indices.presentFamily.isSome = true ∨ ∃ f ∈ families, f.presentSupport = true) := by
  induction families with
  | nil => intro i indices; simp [findQueueFamiliesLoop, QueueFamilyIndices.isComplete]
  | cons family rest ih =>
    intro i indices
    rw [findQueueFamiliesLoop]
    split_ifs with hg hp hc hc hp hc hc
    all_goals first
      | (rw [ih]; simp_all [QueueFamilyIndices.isComplete])
      | simp_all [QueueFamilyIndices.isComplete]

/-- Erasing every available name from the required set leaves the required
names that are not available. -/
theorem foldl_eraseKey (available : List String) :
    ∀ required : List String,
      available.foldl eraseKey required = required.filter fun r => decide (r ∉ available) := by
  induction available with
  | nil => intro required; simp
  | cons a rest ih =>
    intro required
    simp only [List.foldl_cons, ih, eraseKey, List.filter_filter]
    apply List.filter_congr
    intro x _
    by_cases hx : x = a <;> simp [hx]

/-- The queue-family scan of a device ends complete exactly when some family
has the graphics bit and some family can present. -/
theorem findQueueFamilies_isComplete (device : PhysicalDevice) :
    (findQueueFamilies device).isComplete = true ↔
      (∃ f ∈ device.queueFamilies, f.queueFlags &&& VK_QUEUE_GRAPHICS_BIT ≠ 0) ∧
        (∃ f ∈ device.queueFamilies, f.presentSupport = true) := by
  unfold findQueueFamilies
  rw [findQueueFamiliesLoop_isComplete]
  simp

/-- A suitable device has a complete set of family indices. -/
theorem isDeviceSuitable_complete (device : PhysicalDevice)
    (h : isDeviceSuitable device = true) : (findQueueFamilies device).isComplete = true := by
  unfold isDeviceSuitable at h
  cases hc : (findQueueFamilies device).isComplete
  · simp [hc] at h
  · rfl

/-- C8. A device is suitable exactly when some queue family has the graphics
bit, some queue family (possibly the same) can present to the surface, and every
required device extension is among the available ones; and the queue-family
scan, with its early break, ends complete exactly when both capabilities exist
somewhere in the list. -/
theorem isDeviceSuitable_iff (device : PhysicalDevice) :
    (isDeviceSuitable device = true ↔
      (∃ f ∈ device.queueFamilies, f.queueFlags &&& VK_QUEUE_GRAPHICS_BIT ≠ 0) ∧
        (∃ f ∈ device.queueFamilies, f.presentSupport = true) ∧
        (∀ e ∈ m_deviceExtensions, e ∈ device.extensions)) ∧
    ((findQueueFamilies device).isComplete = true ↔
      (∃ f ∈ device.queueFamilies, f.queueFlags &&& VK_QUEUE_GRAPHICS_BIT ≠ 0) ∧
        (∃ f ∈ device.queueFamilies, f.presentSupport = true)) := by
  have hq := findQueueFamilies_isComplete device
  refine ⟨?_, hq⟩
  unfold isDeviceSuitable
  by_cases hc : (findQueueFamilies device).isComplete = true
  · have hq2 := hq.mp hc
    simp only [hc, Bool.not_true, Bool.false_eq_true, if_false, foldl_eraseKey]
    rw [List.isEmpty_iff, List.filter_eq_nil_iff]
    simp only [List.mem_dedup, decide_eq_true_eq, not_not]
    exact ⟨fun h => ⟨hq2.1, hq2.2, h⟩, fun h => h.2.2⟩
  · have hq3 : ¬ ((∃ f ∈ device.queueFamilies, f.queueFlags &&& VK_QUEUE_GRAPHICS_BIT ≠ 0) ∧
        (∃ f ∈ device.queueFamilies, f.presentSupport = true)) := fun h => hc (hq.mpr h)
    simp only [Bool.not_eq_true] at hc
    simp only [hc, Bool.not_false, if_true, Bool.false_eq_true, false_iff]
    exact fun h => hq3 ⟨h.1, h.2.1⟩

/-- The selection loop stores the first suitable device of the list and leaves
the context alone when there is none. -/
theorem pickPhysicalDeviceLoop_spec (devices : List PhysicalDevice) (s : VulkanContext) :
    ((∀ d ∈ devices, isDeviceSuitable d = false) ∧ pickPhysicalDeviceLoop devices s = s) ∨
      ∃ pre d post, devices = pre ++ d :: post ∧ (∀ x ∈ pre, isDeviceSuitable x = false) ∧
        isDeviceSuitable d = true ∧
        pickPhysicalDeviceLoop devices s = { s with m_physicalDevice := some d } := by
  induction devices with
  | nil => left; simp [pickPhysicalDeviceLoop]
  | cons device rest ih =>
    unfold pickPhysicalDeviceLoop
    by_cases hd : isDeviceSuitable device = true
    · right
      exact ⟨[], device, rest, by simp, by simp, hd, by simp [hd]⟩
    · simp only [Bool.not_eq_true] at hd
      rcases ih with ⟨hall, heq⟩ | ⟨pre, d, post, hsplit, hpre, hsuit, heq⟩
      · left
        refine ⟨?_, by simp [hd, heq]⟩
        intro x hx
        rcases List.mem_cons.mp hx with rfl | hx
        · exact hd
        · exact hall x hx
      · right
        refine ⟨device :: pre, d, post, by simp [hsplit], ?_, hsuit, by simp [hd, heq]⟩
        intro x hx
        rcases List.mem_cons.mp hx with rfl | hx
        · exact hd
        · exact hpre x hx

/-- C7. On a context whose physical-device handle is null, `pickPhysicalDevice`
returns false, leaving the handle null, exactly when the enumerated list is
empty or holds no suitable device; otherwise it returns true having stored the
first device of the list, in enumeration order, that is suitable (every device
before it is unsuitable), and it changes nothing else. -/
theorem VulkanContext.pickPhysicalDevice_first_suitable (P : Platform) (s : VulkanContext)
    (hnull : s.m_physicalDevice = none) :
    ((s.pickPhysicalDevice P).ret = false ↔
      (P.vkEnumeratePhysicalDevices s.m_instance = [] ∨
        ∀ d ∈ P.vkEnumeratePhysicalDevices s.m_instance, isDeviceSuitable d = false)) ∧
    ((s.pickPhysicalDevice P).ret = false → (s.pickPhysicalDevice P).state = s) ∧
    ((s.pickPhysicalDevice P).ret = true →
      ∃ pre d post, P.vkEnumeratePhysicalDevices s.m_instance = pre ++ d :: post ∧
        (∀ x ∈ pre, isDeviceSuitable x = false) ∧ isDeviceSuitable d = true ∧
        (s.pickPhysicalDevice P).state = { s with m_physicalDevice := some d }) := by
  unfold VulkanContext.pickPhysicalDevice
  rcases pickPhysicalDeviceLoop_spec (P.vkEnumeratePhysicalDevices s.m_instance) s with
    ⟨hall, heq⟩ | ⟨pre, d, post, hsplit, hpre, hsuit, heq⟩
  · by_cases hlen : (P.vkEnumeratePhysicalDevices s.m_instance).length = 0
    · simp [hlen, hall, List.length_eq_zero.mp hlen]
    · simp only [hlen, if_false, heq, hnull, if_true]
      simp only [true_iff, Bool.false_eq_true, false_implies, and_true, true_and, implies_true]
      exact Or.inr hall
  · have hlen : (P.vkEnumeratePhysicalDevices s.m_instance).length ≠ 0 := by
      rw [hsplit]; simp
    have hsome : ¬ ((P.vkEnumeratePhysicalDevices s.m_instance) = []) := by
      rw [hsplit]; simp
    have hnot : ¬ ∀ x ∈ P.vkEnumeratePhysicalDevices s.m_instance, isDeviceSuitable x = false := by
      intro hcon
      have := hcon d (by rw [hsplit]; simp)
      rw [hsuit] at this
      exact Bool.noConfusion this
    simp only [hlen, if_false, heq]
    simp only [reduceCtorEq, if_false, Bool.true_eq_false, false_iff, not_or, false_implies,
      true_and, forall_true_left]
    exact ⟨⟨hsome, hnot⟩, pre, d, post, hsplit, hpre, hsuit, rfl⟩

/-- A device with a graphics-only family and no presentation support. -/
theorem gpuHeadless_unsuitable :
    isDeviceSuitable
      { handle := 6, deviceName := "headless",
        queueFamilies := [{ queueFlags := 1, presentSupport := false }],
        extensions := ["VK_KHR_swapchain"] } = false := by
  decide

/-- C7, at a host that lists an unsuitable device before a suitable one: the
call returns true and the device stored is preceded by unsuitable ones only. -/
theorem VulkanContext.pickPhysicalDevice_first_suitable_witness :
    ({} : VulkanContext).m_physicalDevice = none ∧
    (({} : VulkanContext).pickPhysicalDevice hostTwoGpus).state.m_physicalDevice = some gpu0 ∧
    ∃ pre d post, hostTwoGpus.vkEnumeratePhysicalDevices none = pre ++ d :: post ∧
      (∀ x ∈ pre, isDeviceSuitable x = false) ∧ isDeviceSuitable d = true ∧
      (({} : VulkanContext).pickPhysicalDevice hostTwoGpus).state =
        { ({} : VulkanContext) with m_physicalDevice := some d } :=
  ⟨rfl, by decide,
    ( VulkanContext.pickPhysicalDevice_first_suitable hostTwoGpus {} rfl).2.2 (by decide)⟩

/-! ## shutdown -/

/-- After `VulkanContext::shutdown` every handle is null; the cached queue
family indices and the validation flag are what they were. -/
theorem VulkanContext.shutdown_state (P : Platform) (s : VulkanContext) :
    (s.shutdown P).state =
      { m_queueFamilyIndices := s.m_queueFamilyIndices,
        m_validationEnabled := s.m_validationEnabled } := by
  rcases s with ⟨i, m, f, pd, d, gq, pq, qfi, ve⟩
  cases i <;> cases m <;> cases f <;> cases d <;>
    simp [VulkanContext.shutdown, VulkanContext.releaseDevice,
      VulkanContext.releaseDebugMessenger, VulkanContext.releaseSurface,
      VulkanContext.releaseInstance]

/-- The calls of `VulkanContext::shutdown`, block by block. -/
theorem VulkanContext.shutdown_calls (P : Platform) (s : VulkanContext) :
    (s.shutdown P).calls = teardownOrder.filterMap (s.destroyCall P) := by
  rcases s with ⟨i, m, f, pd, d, gq, pq, qfi, ve⟩
  cases i <;> cases m <;> cases f <;> cases d <;>
    simp [VulkanContext.shutdown, VulkanContext.releaseDevice,
      VulkanContext.releaseDebugMessenger, VulkanContext.releaseSurface,
      VulkanContext.releaseInstance, teardownOrder, VulkanContext.destroyCall]

/-- C4. `shutdown` is idempotent for `Window`, `VulkanContext` and `Engine`: from
every state, a second `shutdown` right after the first leaves the object as the
first left it and issues no platform call at all (whatever the platform would
answer the second time). -/
theorem shutdown_idempotent :
    (∀ w : Window,
      Window.shutdown (Window.shutdown w).state = ⟨(Window.shutdown w).state, []⟩) ∧
    (∀ (P Q : Platform) (s : VulkanContext),
      (s.shutdown P).state.shutdown Q = ⟨(s.shutdown P).state, []⟩) ∧
    (∀ (P Q : Platform) (e : Engine),
      (e.shutdown P).state.shutdown Q = ⟨(e.shutdown P).state, []⟩) := by
  refine ⟨?_, ?_, ?_⟩
  · intro w
    rcases w with ⟨h, a, b, c⟩
    cases h <;> simp [Window.shutdown]
  · intro P Q s
    rw [VulkanContext.shutdown_state]
    simp [VulkanContext.shutdown, VulkanContext.releaseDevice,
      VulkanContext.releaseDebugMessenger, VulkanContext.releaseSurface,
      VulkanContext.releaseInstance]
  · intro P Q e
    rcases e with ⟨w, v, r, i⟩
    cases i <;> simp [Engine.shutdown]

/-- C5. For every state of a context, the calls `shutdown` issues are exactly the
destroy calls for the handles that are non-null on entry, in the order logical
device, debug messenger, surface, instance, each naming the handle held on entry
(the messenger and the surface are destroyed with the instance still held, and
the messenger's call is the member `destroyDebugUtilsMessengerEXT`, which passes
it on to the driver's entry point when that resolves); the destroy of the
instance, when there is one, is the last call; and each guarded block leaves its
own handle null before the next block runs, so that all handles are null at the
end. -/
theorem VulkanContext.shutdown_order (P : Platform) (s : VulkanContext) :
    (s.shutdown P).calls = teardownOrder.filterMap (s.destroyCall P) ∧
    ((s.shutdown P).calls.filterMap Call.destroys).map Prod.fst = teardownOrder.filter s.holds ∧
    (s.shutdown P).calls.length = (teardownOrder.filter s.holds).length ∧
    (∀ i, Call.vkDestroyInstance i ∈ (s.shutdown P).calls →
      (s.shutdown P).calls.getLast? = some (Call.vkDestroyInstance i)) ∧
    (s.shutdown P).calls =
      s.releaseDevice.calls ++ (s.releaseDevice.state.releaseDebugMessenger P).calls ++
        (s.releaseDevice.state.releaseDebugMessenger P).state.releaseSurface.calls ++
        (s.releaseDevice.state.releaseDebugMessenger P).state.releaseSurface.state.releaseInstance.calls ∧
    s.releaseDevice.state.m_device = none ∧
    (∀ t : VulkanContext, (t.releaseDebugMessenger P).state.m_debugMessenger = none ∧
      t.releaseSurface.state.m_surface = none ∧ t.releaseInstance.state.m_instance = none) ∧
    (s.shutdown P).state.m_device = none ∧ (s.shutdown P).state.m_debugMessenger = none ∧
    (s.shutdown P).state.m_surface = none ∧ (s.shutdown P).state.m_instance = none ∧
    (s.shutdown P).state.m_physicalDevice = none ∧ (s.shutdown P).state.m_graphicsQueue = none ∧
    (s.shutdown P).state.m_presentQueue = none := by
  refine ⟨VulkanContext.shutdown_calls P s, ?_, ?_, ?_, rfl, ?_, ?_, ?_⟩
  · rcases s with ⟨i, m, f, pd, d, gq, pq, qfi, ve⟩
    cases i <;> cases m <;> cases f <;> cases d <;>
      simp [VulkanContext.shutdown, VulkanContext.releaseDevice,
        VulkanContext.releaseDebugMessenger, VulkanContext.releaseSurface,
        VulkanContext.releaseInstance, teardownOrder, VulkanContext.holds, Call.destroys,
        destroyDebugUtilsMessengerEXT]
  · rcases s with ⟨i, m, f, pd, d, gq, pq, qfi, ve⟩
    cases i <;> cases m <;> cases f <;> cases d <;>
      simp [VulkanContext.shutdown, VulkanContext.releaseDevice,
        VulkanContext.releaseDebugMessenger, VulkanContext.releaseSurface,
        VulkanContext.releaseInstance, teardownOrder, VulkanContext.holds]
  · rcases s with ⟨i, m, f, pd, d, gq, pq, qfi, ve⟩
    cases i <;> cases m <;> cases f <;> cases d <;>
      simp [VulkanContext.shutdown, VulkanContext.releaseDevice,
        VulkanContext.releaseDebugMessenger, VulkanContext.releaseSurface,
        VulkanContext.releaseInstance, destroyDebugUtilsMessengerEXT]
  · rcases s with ⟨i, m, f, pd, d, gq, pq, qfi, ve⟩
    cases d <;> simp [VulkanContext.releaseDevice]
  · intro t
    rcases t with ⟨i, m, f, pd, d, gq, pq, qfi, ve⟩
    cases i <;> cases m <;> cases f <;>
      simp [VulkanContext.releaseDebugMessenger, VulkanContext.releaseSurface,
        VulkanContext.releaseInstance]
  · rw [VulkanContext.shutdown_state]
    simp

/-! ## VulkanContext::initialize, step by step -/

/-- The two outcomes of `createInstance`: the validation flag is kept only when
the layers are available, and the instance handle is set exactly on success. -/
theorem createInstance_spec (P : Platform) (config : VulkanContextConfig) (s : VulkanContext) :
    (∃ i, s.createInstance P config =
        ⟨true, { s with m_validationEnabled := s.m_validationEnabled && checkValidationLayerSupport P,
                        m_instance := some i },
          [.vkCreateInstance (VulkanContext.instanceCreateInfo P config
            { s with m_validationEnabled := s.m_validationEnabled && checkValidationLayerSupport P })
            (some i)]⟩ ∧
        P.vkCreateInstance (VulkanContext.instanceCreateInfo P config
            { s with m_validationEnabled := s.m_validationEnabled && checkValidationLayerSupport P })
          = some i) ∨
    (s.createInstance P config =
        ⟨false, { s with m_validationEnabled := s.m_validationEnabled && checkValidationLayerSupport P },
          [.vkCreateInstance (VulkanContext.instanceCreateInfo P config
            { s with m_validationEnabled := s.m_validationEnabled && checkValidationLayerSupport P })
            none]⟩ ∧
      P.vkCreateInstance (VulkanContext.instanceCreateInfo P config
            { s with m_validationEnabled := s.m_validationEnabled && checkValidationLayerSupport P })
          = none) := by
  have hs1 : (if (s.m_validationEnabled && !checkValidationLayerSupport P) = true then
      { s with m_validationEnabled := false } else s) =
      { s with m_validationEnabled := s.m_validationEnabled && checkValidationLayerSupport P } := by
    rcases s with ⟨i, m, f, pd, d, gq, pq, qfi, ve⟩
    cases ve <;> cases checkValidationLayerSupport P <;> simp
  unfold VulkanContext.createInstance
  simp only [hs1]
  cases hci : P.vkCreateInstance (VulkanContext.instanceCreateInfo P config
            { s with m_validationEnabled := s.m_validationEnabled && checkValidationLayerSupport P }) with
  | none => right; simp
  | some i => left; exact ⟨i, by simp⟩


/-- The two outcomes of `setupDebugMessenger`. -/
theorem setupDebugMessenger_spec (P : Platform) (s : VulkanContext) :
    (∃ m, s.setupDebugMessenger P =
        ⟨true, { s with m_debugMessenger := some m },
          [.createDebugUtilsMessengerEXT s.m_instance true (some m)]⟩) ∨
    (∃ res, s.setupDebugMessenger P =
        ⟨false, s, [.createDebugUtilsMessengerEXT s.m_instance res none]⟩) := by
  unfold VulkanContext.setupDebugMessenger createDebugUtilsMessengerEXT
  cases hres : P.vkGetInstanceProcAddr s.m_instance "vkCreateDebugUtilsMessengerEXT"
  · right; exact ⟨false, by simp⟩
  · cases hm : P.vkCreateDebugUtilsMessengerEXT s.m_instance with
    | none => right; exact ⟨true, by simp [hm]⟩
    | some m => left; exact ⟨m, by simp [hm]⟩

/-- The selection loop stores the first suitable device, if any. -/
theorem pickPhysicalDeviceLoop_eq (devices : List PhysicalDevice) (s : VulkanContext) :
    pickPhysicalDeviceLoop devices s =
      match devices.find? isDeviceSuitable with
      | some pd => { s with m_physicalDevice := some pd }
      | none => s := by
  induction devices with
  | nil => simp [pickPhysicalDeviceLoop]
  | cons d rest ih =>
    unfold pickPhysicalDeviceLoop
    by_cases hd : isDeviceSuitable d = true
    · simp [hd]
    · simp only [Bool.not_eq_true] at hd
      simp [hd, ih]

/-- `pickPhysicalDevice` on a context with a null physical-device handle. -/
theorem pickPhysicalDevice_eq (P : Platform) (s : VulkanContext)
    (hnull : s.m_physicalDevice = none) :
    s.pickPhysicalDevice P =
      match (P.vkEnumeratePhysicalDevices s.m_instance).find? isDeviceSuitable with
      | some pd => ⟨true, { s with m_physicalDevice := some pd }, []⟩
      | none => ⟨false, s, []⟩ := by
  unfold VulkanContext.pickPhysicalDevice
  simp only [pickPhysicalDeviceLoop_eq]
  cases hfind : (P.vkEnumeratePhysicalDevices s.m_instance).find? isDeviceSuitable with
  | none =>
    by_cases hlen : (P.vkEnumeratePhysicalDevices s.m_instance).length = 0
    · simp [hlen]
    · simp [hlen, hnull]
  | some pd =>
    have hmem := List.mem_of_find?_eq_some hfind
    have hlen : (P.vkEnumeratePhysicalDevices s.m_instance).length ≠ 0 := by
      intro h0
      rw [List.length_eq_zero.mp h0] at hmem
      simp at hmem
    simp [hlen]

/-- Both family indices of a suitable device are found. -/
theorem isDeviceSuitable_indices (pd : PhysicalDevice) (hsuit : isDeviceSuitable pd = true) :
    ∃ g p, findQueueFamilies pd = ⟨some g, some p⟩ := by
  have hc : (findQueueFamilies pd).isComplete = true := isDeviceSuitable_complete pd hsuit
  rcases hq : findQueueFamilies pd with ⟨og, op⟩
  rw [hq] at hc
  cases og with
  | none => simp [QueueFamilyIndices.isComplete] at hc
  | some g =>
    cases op with
    | none => simp [QueueFamilyIndices.isComplete] at hc
    | some p => exact ⟨g, p, rfl⟩

/-- The five ways `VulkanContext::initialize` ends on a context whose
physical-device handle is null: instance creation fails; surface creation fails;
no device is suitable; device creation fails; or all steps succeed.  In each the
return value, the final context and the calls issued are spelled out. -/
theorem VulkanContext.initialize_outcome (P : Platform) (config : VulkanContextConfig)
    (window : Window) (s : VulkanContext) (hnull : s.m_physicalDevice = none) :
    ∃ (sA : VulkanContext) (info : InstanceCreateInfo),
      sA = { s with m_validationEnabled :=
              config.enableValidation && checkValidationLayerSupport P } ∧
      info = sA.instanceCreateInfo P config ∧
      ((P.vkCreateInstance info = none ∧
          VulkanContext.initialize P config window s =
            some ⟨false, sA, [.vkCreateInstance info none]⟩) ∨
        ∃ (i : Handle) (sB : VulkanContext) (cm : List Call),
          P.vkCreateInstance info = some i ∧
          ((sA.m_validationEnabled = false ∧ cm = [] ∧ sB = { sA with m_instance := some i }) ∨
            (sA.m_validationEnabled = true ∧
              ∃ res, cm = [.createDebugUtilsMessengerEXT (some i) res none] ∧
                sB = { sA with m_instance := some i }) ∨
            (sA.m_validationEnabled = true ∧
              ∃ m, cm = [.createDebugUtilsMessengerEXT (some i) true (some m)] ∧
                sB = { sA with m_instance := some i, m_debugMessenger := some m })) ∧
          ((P.glfwCreateWindowSurface (some i) window.m_window = none ∧
              VulkanContext.initialize P config window s =
                some ⟨false, sB, .vkCreateInstance info (some i) :: cm ++
                  [.glfwCreateWindowSurface (some i) window.m_window none]⟩) ∨
            ∃ (f : Handle) (sC : VulkanContext) (pre : List Call),
              P.glfwCreateWindowSurface (some i) window.m_window = some f ∧
              sC = { sB with m_surface := some f } ∧
              pre = .vkCreateInstance info (some i) :: cm ++
                  [.glfwCreateWindowSurface (some i) window.m_window (some f)] ∧
              (((∀ d ∈ P.vkEnumeratePhysicalDevices (some i), isDeviceSuitable d = false) ∧
                  VulkanContext.initialize P config window s = some ⟨false, sC, pre⟩) ∨
                ∃ (pd : PhysicalDevice) (g p : Nat) (sD : VulkanContext)
                    (dinfo : DeviceCreateInfo),
                  (P.vkEnumeratePhysicalDevices (some i)).find? isDeviceSuitable = some pd ∧
                  isDeviceSuitable pd = true ∧
                  findQueueFamilies pd = ⟨some g, some p⟩ ∧
                  sD = { sC with m_physicalDevice := some pd,
                                 m_queueFamilyIndices := ⟨some g, some p⟩ } ∧
                  dinfo = deviceCreateInfo sA.m_validationEnabled g p ∧
                  ((P.vkCreateDevice pd dinfo = none ∧
                      VulkanContext.initialize P config window s =
                        some ⟨false, sD, pre ++ [.vkCreateDevice pd dinfo none]⟩) ∨
                    ∃ d, P.vkCreateDevice pd dinfo = some d ∧
                      VulkanContext.initialize P config window s =
                        some ⟨true,
                          { sD with m_device := some d,
                                    m_graphicsQueue := some (P.vkGetDeviceQueue d g 0),
                                    m_presentQueue := some (P.vkGetDeviceQueue d p 0) },
                          pre ++ [.vkCreateDevice pd dinfo (some d),
                            .vkGetDeviceQueue d g 0, .vkGetDeviceQueue d p 0]⟩)))) := by
  refine ⟨_, _, rfl, rfl, ?_⟩
  unfold VulkanContext.initialize
  rcases createInstance_spec P config { s with m_validationEnabled := config.enableValidation }
    with ⟨i, h1, hi⟩ | ⟨h1, hi⟩
  · right
    simp only [] at h1 hi
    simp only [h1, Bool.not_true, Bool.false_eq_true, if_false]
    generalize hvdef : (config.enableValidation && checkValidationLayerSupport P) = v at *
    have hstep : ∃ (sB : VulkanContext) (cm : List Call),
        (if v = true then
            VulkanContext.setupDebugMessenger P
              { s with m_instance := some i, m_validationEnabled := v }
          else ⟨true, { s with m_instance := some i, m_validationEnabled := v }, []⟩).state
          = sB ∧
        (if v = true then
            VulkanContext.setupDebugMessenger P
              { s with m_instance := some i, m_validationEnabled := v }
          else ⟨true, { s with m_instance := some i, m_validationEnabled := v }, []⟩).calls
          = cm ∧
        sB.m_instance = some i ∧ sB.m_physicalDevice = none ∧ sB.m_validationEnabled = v ∧
        ((v = false ∧ cm = [] ∧
            sB = { s with m_instance := some i, m_validationEnabled := v }) ∨
          (v = true ∧
            ∃ res, cm = [.createDebugUtilsMessengerEXT (some i) res none] ∧
              sB = { s with m_instance := some i, m_validationEnabled := v }) ∨
          (v = true ∧
            ∃ m, cm = [.createDebugUtilsMessengerEXT (some i) true (some m)] ∧
              sB = { s with m_instance := some i, m_debugMessenger := some m,
                            m_validationEnabled := v })) := by
      cases v
      · exact ⟨_, _, rfl, rfl, rfl, hnull, rfl, Or.inl ⟨rfl, rfl, rfl⟩⟩
      · simp only [if_true]
        rcases setupDebugMessenger_spec P
          { s with m_instance := some i, m_validationEnabled := true } with ⟨m, h2⟩ | ⟨res, h2⟩
        · simp only [] at h2
          simp only [h2]
          exact ⟨_, _, rfl, rfl, rfl, hnull, rfl, Or.inr (Or.inr ⟨trivial, m, rfl, rfl⟩)⟩
        · simp only [] at h2
          simp only [h2]
          exact ⟨_, _, rfl, rfl, rfl, hnull, rfl, Or.inr (Or.inl ⟨trivial, res, rfl, rfl⟩)⟩
    obtain ⟨sB, cm, hsB, hcm, hBi, hBpd, hBv, hdisj⟩ := hstep
    simp only [hsB, hcm]
    refine ⟨i, sB, cm, hi, hdisj, ?_⟩
    clear hdisj hsB hcm h1
    rcases sB with ⟨bi, bm, bf, bpd, bd, bgq, bpq, bqfi, bve⟩
    simp only at hBi hBpd hBv
    subst hBi hBpd hBv
    simp only [VulkanContext.createSurface]
    cases hf : P.glfwCreateWindowSurface (some i) window.m_window with
    | none =>
      left
      simp
    | some f =>
      right
      refine ⟨f, _, _, rfl, rfl, rfl, ?_⟩
      simp only [Bool.not_true, Bool.false_eq_true, if_false]
      simp only [pickPhysicalDevice_eq]
      cases hfind : (P.vkEnumeratePhysicalDevices (some i)).find? isDeviceSuitable with
      | none =>
        left
        refine ⟨?_, by simp⟩
        intro d hd
        have := List.find?_eq_none.mp hfind d hd
        simpa using this
      | some pd =>
        right
        have hsuit : isDeviceSuitable pd = true := List.find?_some hfind
        obtain ⟨g, p, hq⟩ := isDeviceSuitable_indices pd hsuit
        refine ⟨pd, g, p, _, _, rfl, hsuit, hq, rfl, rfl, ?_⟩
        simp only [Bool.not_true, Bool.false_eq_true, if_false,
          VulkanContext.createLogicalDevice, hq]
        cases hd : P.vkCreateDevice pd (deviceCreateInfo bve g p) with
        | none => left; simp
        | some d => right; exact ⟨d, rfl, by simp⟩
  · left
    simp only [] at h1 hi
    refine ⟨hi, ?_⟩
    simp only [h1]
    simp

/-! ## Failure of VulkanContext::initialize -/

/-- C1, as stated, fails on a host that reports no physical device: `initialize`
on a fresh context returns false, yet the instance and the surface it created
are still held (the context is not back in its fresh state) and no destroy call
was issued. -/
theorem VulkanContext.initialize_failure_keeps_handles :
    ∃ r, VulkanContext.initialize hostNoGpu {} openWindow {} = some r ∧ r.ret = false ∧
      r.state.m_instance = some 1 ∧ r.state.m_surface = some 3 ∧ r.state ≠ {} ∧
      r.calls.filterMap Call.creates = [(Resource.vkInstance, 1), (Resource.surface, 3)] ∧
      r.calls.filterMap Call.destroys = [] :=
  ⟨_, rfl, by decide⟩

/-- C1, amended. `initialize` on a fresh context always returns, and when it
returns false the logical device and both queue handles are null and no destroy
call has been issued during the call: the sub-resources created before the
failing step are still held.  A `shutdown` afterwards (whatever the platform
answers then) destroys exactly the sub-resources the failed attempt created,
each once, and leaves all seven handles null. -/
theorem VulkanContext.initialize_failure (P Q : Platform) (config : VulkanContextConfig)
    (window : Window) :
    ∃ r, VulkanContext.initialize P config window {} = some r ∧
      (r.ret = false →
        r.state.m_device = none ∧ r.state.m_graphicsQueue = none ∧
        r.state.m_presentQueue = none ∧
        r.calls.filterMap Call.destroys = [] ∧
        (r.calls.filterMap Call.creates).Perm
          ((r.state.shutdown Q).calls.filterMap Call.destroys) ∧
        (r.state.shutdown Q).state =
          { m_queueFamilyIndices := r.state.m_queueFamilyIndices,
            m_validationEnabled := r.state.m_validationEnabled }) := by
  obtain ⟨sA, info, hsA, hinfo, hout⟩ :=
    VulkanContext.initialize_outcome P config window {} rfl
  rcases hout with ⟨-, h⟩ | ⟨i, sB, cm, -, hmsg, hout⟩
  · refine ⟨_, h, fun _ => ?_⟩
    subst hsA
    simp [VulkanContext.shutdown_calls, VulkanContext.shutdown_state, teardownOrder,
      VulkanContext.destroyCall, Call.destroys, Call.creates]
  · rcases hout with ⟨-, h⟩ | ⟨f, sC, pre, -, hsC, hpre, hout⟩
    · refine ⟨_, h, fun _ => ?_⟩
      subst hsA
      rcases hmsg with ⟨-, hcm, hsB⟩ | ⟨-, res, hcm, hsB⟩ | ⟨-, m, hcm, hsB⟩ <;>
        subst hcm hsB <;>
        simp [VulkanContext.shutdown_calls, VulkanContext.shutdown_state, teardownOrder,
          VulkanContext.destroyCall, Call.destroys, Call.creates,
          destroyDebugUtilsMessengerEXT]
      exact List.Perm.swap _ _ _
    · rcases hout with ⟨-, h⟩ | ⟨pd, g, p, sD, dinfo, -, -, -, hsD, -, hout⟩
      · refine ⟨_, h, fun _ => ?_⟩
        subst hsA hpre hsC
        rcases hmsg with ⟨-, hcm, hsB⟩ | ⟨-, res, hcm, hsB⟩ | ⟨-, m, hcm, hsB⟩ <;>
          subst hcm hsB <;>
          simp [VulkanContext.shutdown_calls, VulkanContext.shutdown_state, teardownOrder,
            VulkanContext.destroyCall, Call.destroys, Call.creates,
            destroyDebugUtilsMessengerEXT]
        all_goals first
          | exact @List.perm_append_comm _ [_] [_]
          | exact @List.perm_append_comm _ [_] [_, _]
      · rcases hout with ⟨-, h⟩ | ⟨d, -, h⟩
        · refine ⟨_, h, fun _ => ?_⟩
          subst hsA hpre hsC hsD
          rcases hmsg with ⟨-, hcm, hsB⟩ | ⟨-, res, hcm, hsB⟩ | ⟨-, m, hcm, hsB⟩ <;>
            subst hcm hsB <;>
            simp [VulkanContext.shutdown_calls, VulkanContext.shutdown_state, teardownOrder,
              VulkanContext.destroyCall, Call.destroys, Call.creates,
              destroyDebugUtilsMessengerEXT]
          all_goals first
            | exact @List.perm_append_comm _ [_] [_]
            | exact @List.perm_append_comm _ [_] [_, _]
        · exact ⟨_, h, fun hf => by simp at hf⟩

/-! ## Validation requested but not available -/

/-- `checkValidationLayerSupport` holds exactly when every wanted layer is
among the available instance layers. -/
theorem checkValidationLayerSupport_iff (P : Platform) :
    checkValidationLayerSupport P = true ↔
      ∀ layer ∈ m_validationLayers, layer ∈ P.vkEnumerateInstanceLayerProperties := by
  simp [checkValidationLayerSupport, List.all_eq_true, List.any_eq_true]

/-- C6. When validation is requested but some required layer is absent from the
available instance layers, `initialize` does, from any context, exactly what it
does with `enableValidation = false` (same return value, same final context,
same calls).  On a fresh context it returns, with the validation flag off and
the debug messenger null; every instance creation it requests has no layer, no
chained debug-messenger info and just the extensions the windowing library
requires; every device creation it requests has no layer; no debug messenger
creation is attempted; and it returns true exactly when instance creation,
surface creation, device selection and device creation succeed. -/
theorem VulkanContext.initialize_validation_unavailable (P : Platform)
    (config : VulkanContextConfig) (window : Window)
    (hreq : config.enableValidation = true)
    (hmissing : ∃ layer ∈ m_validationLayers, layer ∉ P.vkEnumerateInstanceLayerProperties) :
    (∀ s : VulkanContext, VulkanContext.initialize P config window s =
      VulkanContext.initialize P { config with enableValidation := false } window s) ∧
    ∃ r, VulkanContext.initialize P config window {} = some r ∧
      r.state.m_validationEnabled = false ∧ r.state.m_debugMessenger = none ∧
      (∀ c ∈ r.calls,
        (∀ info res, c = Call.vkCreateInstance info res →
          info.enabledLayers = [] ∧ info.debugMessengerChained = false ∧
          info.enabledExtensions = P.glfwGetRequiredInstanceExtensions) ∧
        (∀ pd info res, c = Call.vkCreateDevice pd info res → info.enabledLayers = []) ∧
        (∀ inst res m, c ≠ Call.createDebugUtilsMessengerEXT inst res m)) ∧
      (r.ret = true ↔
        ∃ i f pd g p d,
          P.vkCreateInstance (VulkanContext.instanceCreateInfo P config {}) = some i ∧
          P.glfwCreateWindowSurface (some i) window.m_window = some f ∧
          (P.vkEnumeratePhysicalDevices (some i)).find? isDeviceSuitable = some pd ∧
          findQueueFamilies pd = ⟨some g, some p⟩ ∧
          P.vkCreateDevice pd (deviceCreateInfo false g p) = some d) := by
  have hcheck : checkValidationLayerSupport P = false := by
    rcases hmissing with ⟨layer, hl, hnot⟩
    cases hc : checkValidationLayerSupport P
    · rfl
    · exact absurd ((checkValidationLayerSupport_iff P).mp hc layer hl) hnot
  refine ⟨?_, ?_⟩
  · intro s
    have h1 : VulkanContext.createInstance P config
          { s with m_validationEnabled := config.enableValidation } =
        VulkanContext.createInstance P { config with enableValidation := false }
          { s with m_validationEnabled := false } := by
      simp [VulkanContext.createInstance, hreq, hcheck, VulkanContext.instanceCreateInfo,
        VulkanContext.getRequiredExtensions]
    unfold VulkanContext.initialize
    simp only [h1]
  · obtain ⟨sA, info, hsA, hinfo, hout⟩ :=
      VulkanContext.initialize_outcome P config window {} rfl
    simp only [hreq, hcheck, Bool.and_false] at hsA
    subst hsA
    have hi0 : info = VulkanContext.instanceCreateInfo P config {} := hinfo
    have hinfo2 : info.enabledLayers = [] ∧ info.debugMessengerChained = false ∧
        info.enabledExtensions = P.glfwGetRequiredInstanceExtensions := by
      subst hinfo
      simp [VulkanContext.instanceCreateInfo, VulkanContext.getRequiredExtensions]
    rw [← hi0]
    clear hinfo hi0
    rcases hout with ⟨hci, h⟩ | ⟨i, sB, cm, hci, hmsg, hout⟩
    · refine ⟨_, h, rfl, rfl, ?_, ?_⟩
      · intro c hc
        simp only [List.mem_singleton] at hc
        subst hc
        simp [hinfo2]
      · simp [hci]
    · rcases hmsg with ⟨-, hcm, hsB⟩ | ⟨hv, -⟩ | ⟨hv, -⟩
      rotate_left
      · simp at hv
      · simp at hv
      subst hcm hsB
      rcases hout with ⟨hsf, h⟩ | ⟨f, sC, pre, hsf, hsC, hpre, hout⟩
      · refine ⟨_, h, rfl, rfl, ?_, ?_⟩
        · intro c hc
          simp only [List.append_nil, List.mem_cons, List.mem_singleton, List.not_mem_nil,
            or_false, List.cons_append, List.nil_append] at hc
          rcases hc with rfl | rfl <;> simp [hinfo2]
        · simp [hci, hsf]
      · subst hsC hpre
        rcases hout with ⟨hnone, h⟩ | ⟨pd, g, p, sD, dinfo, hfind, hsuit, hq, hsD, hdinfo, hout⟩
        · refine ⟨_, h, rfl, rfl, ?_, ?_⟩
          · intro c hc
            simp only [List.append_nil, List.mem_cons, List.mem_singleton, List.not_mem_nil,
              or_false, List.cons_append, List.nil_append] at hc
            rcases hc with rfl | rfl <;> simp [hinfo2]
          · have hnf : (P.vkEnumeratePhysicalDevices (some i)).find? isDeviceSuitable = none := by
              rw [List.find?_eq_none]
              intro d hd
              simp [hnone d hd]
            simp [hci, hsf, hnf]
        · subst hsD
          simp only at hdinfo
          subst hdinfo
          rcases hout with ⟨hcd, h⟩ | ⟨d, hcd, h⟩
          · refine ⟨_, h, rfl, rfl, ?_, ?_⟩
            · intro c hc
              simp only [List.append_nil, List.mem_cons, List.mem_singleton, List.not_mem_nil,
                or_false, List.cons_append, List.nil_append, List.mem_append] at hc
              rcases hc with rfl | rfl | rfl <;> simp [hinfo2, deviceCreateInfo]
            · simp [hci, hsf, hfind, hq, hcd]
          · refine ⟨_, h, rfl, rfl, ?_, ?_⟩
            · intro c hc
              simp only [List.append_nil, List.mem_cons, List.mem_singleton, List.not_mem_nil,
                or_false, List.cons_append, List.nil_append, List.mem_append] at hc
              rcases hc with rfl | rfl | rfl | rfl | rfl <;> simp [hinfo2, deviceCreateInfo]
            · simp only [true_iff]
              exact ⟨i, f, pd, g, p, d, hci, hsf, hfind, hq, hcd⟩

/-- C6, at a host without the validation layer and the default configuration
(validation requested). -/
theorem VulkanContext.initialize_validation_unavailable_witness :
    ({} : VulkanContextConfig).enableValidation = true ∧
    (∃ layer ∈ m_validationLayers, layer ∉ hostOneGpu.vkEnumerateInstanceLayerProperties) ∧
    ∀ s : VulkanContext, VulkanContext.initialize hostOneGpu {} openWindow s =
      VulkanContext.initialize hostOneGpu { enableValidation := false } openWindow s :=
  ⟨rfl, ⟨"VK_LAYER_KHRONOS_validation", by decide, by decide⟩,
    ( VulkanContext.initialize_validation_unavailable hostOneGpu {} openWindow rfl
      ⟨"VK_LAYER_KHRONOS_validation", by decide, by decide⟩).1⟩

/-! ## initialize followed by shutdown -/

/-- After a successful `initialize` on a fresh context every handle is set, the
cached queue family indices are complete, and the validation flag is on exactly
when it was requested and the layers are available. -/
theorem VulkanContext.initialize_success (P : Platform) (config : VulkanContextConfig)
    (window : Window) (r : Step VulkanContext)
    (h : VulkanContext.initialize P config window {} = some r) (ht : r.ret = true) :
    r.state.m_queueFamilyIndices.isComplete = true ∧
    r.state.m_validationEnabled = (config.enableValidation && checkValidationLayerSupport P) ∧
    r.state.m_instance.isSome = true ∧ r.state.m_surface.isSome = true ∧
    r.state.m_physicalDevice.isSome = true ∧ r.state.m_device.isSome = true ∧
    r.state.m_graphicsQueue.isSome = true ∧ r.state.m_presentQueue.isSome = true := by
  obtain ⟨sA, info, hsA, hinfo, hout⟩ :=
    VulkanContext.initialize_outcome P config window {} rfl
  rcases hout with ⟨-, h2⟩ | ⟨i, sB, cm, -, hmsg, hout⟩
  · rw [h] at h2; cases h2; simp at ht
  · rcases hout with ⟨-, h2⟩ | ⟨f, sC, pre, -, hsC, hpre, hout⟩
    · rw [h] at h2; cases h2; simp at ht
    · rcases hout with ⟨-, h2⟩ | ⟨pd, g, p, sD, dinfo, -, -, -, hsD, -, hout⟩
      · rw [h] at h2; cases h2; simp at ht
      · rcases hout with ⟨-, h2⟩ | ⟨d, -, h2⟩
        · rw [h] at h2; cases h2; simp at ht
        · rw [h] at h2
          cases h2
          subst hsD hsC hsA
          rcases hmsg with ⟨-, -, hsB⟩ | ⟨-, res, -, hsB⟩ | ⟨-, m, -, hsB⟩ <;>
            subst hsB <;> simp [QueueFamilyIndices.isComplete]

/-- C3, as stated, fails for the context: after a successful `initialize` and
an immediate `shutdown` the cached queue family indices and the validation flag
keep their values, so the context is not in the state of a fresh one. -/
theorem VulkanContext.initialize_shutdown_not_fresh :
    ∃ r, VulkanContext.initialize hostValidation {} openWindow {} = some r ∧ r.ret = true ∧
      (r.state.shutdown hostValidation).state ≠ {} ∧
      (r.state.shutdown hostValidation).state.m_queueFamilyIndices = ⟨some 0, some 0⟩ ∧
      (r.state.shutdown hostValidation).state.m_validationEnabled = true :=
  ⟨_, rfl, by decide⟩

/-- C3, amended. After a successful `initialize` immediately followed by
`shutdown` on a fresh object: the `Window` is exactly a fresh window (null handle,
zero width and height, resize flag false); every handle of the `VulkanContext` is
null, but its cached queue family indices, which are complete, and its validation
flag keep the values `initialize` gave them; the `Engine` has both flags false, a
fresh window, and a context that is fresh up to those two members. -/
theorem initialize_shutdown_resets (P Q : Platform) (self : Addr) (wconfig : WindowConfig)
    (vconfig : VulkanContextConfig) (econfig : EngineConfig) (window : Window) :
    (( Window.initialize P self wconfig {}).ret = true →
      ( Window.initialize P self wconfig {}).state.shutdown.state = {}) ∧
    (∀ r, VulkanContext.initialize P vconfig window {} = some r → r.ret = true →
      (r.state.shutdown Q).state =
        { m_queueFamilyIndices := r.state.m_queueFamilyIndices,
          m_validationEnabled := r.state.m_validationEnabled } ∧
      r.state.m_queueFamilyIndices.isComplete = true ∧
      r.state.m_validationEnabled =
        (vconfig.enableValidation && checkValidationLayerSupport P)) ∧
    (∀ r, Engine.initialize P self econfig {} = some r → r.ret = true →
      (r.state.shutdown Q).state =
        { m_window := {}
          m_vulkanContext :=
            { m_queueFamilyIndices := r.state.m_vulkanContext.m_queueFamilyIndices,
              m_validationEnabled := r.state.m_vulkanContext.m_validationEnabled }
          m_running := false
          m_initialized := false } ∧
      r.state.m_vulkanContext.m_queueFamilyIndices.isComplete = true ∧
      r.state.m_vulkanContext.m_validationEnabled =
        (econfig.enableValidation && checkValidationLayerSupport P)) := by
  have hw : ∀ w : Window, w.shutdown.state = {} := by
    intro w
    rcases w with ⟨h, a, b, c⟩
    cases h <;> simp [Window.shutdown]
  refine ⟨fun _ => hw _, ?_, ?_⟩
  · intro r h ht
    have hs := VulkanContext.initialize_success P vconfig window r h ht
    exact ⟨VulkanContext.shutdown_state Q r.state, hs.1, hs.2.1⟩
  · intro r h ht
    unfold Engine.initialize at h
    cases hwr : ( Window.initialize P self econfig.window {}).ret
    · simp [hwr] at h
      rw [← h] at ht
      simp at ht
    · simp only [hwr, Bool.not_true, Bool.false_eq_true, if_false] at h
      cases hv : VulkanContext.initialize P
          { applicationName := econfig.applicationName,
            enableValidation := econfig.enableValidation }
          ( Window.initialize P self econfig.window {}).state {} with
      | none => simp [hv] at h
      | some rv =>
        simp only [hv] at h
        cases hrv : rv.ret
        · simp [hrv] at h
          rw [← h] at ht
          simp at ht
        · simp only [hrv, Bool.not_true, Bool.false_eq_true, if_false, Option.some.injEq] at h
          have hs := VulkanContext.initialize_success P _ _ rv hv hrv
          subst h
          simp only [Engine.shutdown, Bool.not_true, Bool.false_eq_true, if_false, hw,
            VulkanContext.shutdown_state]
          exact ⟨trivial, hs.1, hs.2.1⟩

/-! ## Engine::initialize -/

/-- A failed `Window::initialize` leaves a fresh window as it was. -/
theorem Window.initialize_false_state (P : Platform) (self : Addr) (config : WindowConfig)
    (h : ( Window.initialize P self config {}).ret = false) :
    ( Window.initialize P self config {}).state = {} := by
  revert h
  unfold Window.initialize
  cases hi : P.glfwInit <;> cases hv : P.glfwVulkanSupported <;> simp
  split <;> simp_all

/-- `VulkanContext::initialize` on a fresh context returns, and without a
logical device when it returns false. -/
theorem VulkanContext.initialize_returns (P : Platform) (config : VulkanContextConfig)
    (window : Window) :
    ∃ r, VulkanContext.initialize P config window {} = some r ∧
      (r.ret = false → r.state.m_device = none) := by
  obtain ⟨sA, info, hsA, hinfo, hout⟩ :=
    VulkanContext.initialize_outcome P config window {} rfl
  subst hsA
  rcases hout with ⟨-, h⟩ | ⟨i, sB, cm, -, hmsg, hout⟩
  · exact ⟨_, h, fun _ => rfl⟩
  · have hB : sB.m_device = none := by
      rcases hmsg with ⟨-, -, hsB⟩ | ⟨-, res, -, hsB⟩ | ⟨-, m, -, hsB⟩ <;> subst hsB <;> rfl
    rcases hout with ⟨-, h⟩ | ⟨f, sC, pre, -, hsC, hpre, hout⟩
    · exact ⟨_, h, fun _ => hB⟩
    · subst hsC
      rcases hout with ⟨-, h⟩ | ⟨pd, g, p, sD, dinfo, -, -, -, hsD, -, hout⟩
      · exact ⟨_, h, fun _ => hB⟩
      · subst hsD
        rcases hout with ⟨-, h⟩ | ⟨d, -, h⟩
        · exact ⟨_, h, fun _ => hB⟩
        · exact ⟨_, h, fun hf => by simp at hf⟩

/-- What holds of `Engine::initialize` on a fresh engine, on every platform: it
returns; the window is initialised first (its calls come first); it returns false
exactly when the window or the context fails to initialise; and when it returns
false the window is back in its fresh state, the ready flag is false and the
context holds no logical device. -/
theorem Engine.initialize_window_then_context (P : Platform) (self : Addr) (config : EngineConfig) :
    ∃ r, Engine.initialize P self config {} = some r ∧
      ( Window.initialize P self config.window {}).calls <+: r.calls ∧
      (r.ret = false ↔
        (( Window.initialize P self config.window {}).ret = false ∨
          ∃ rv, VulkanContext.initialize P
              { applicationName := config.applicationName,
                enableValidation := config.enableValidation }
              ( Window.initialize P self config.window {}).state {} = some rv ∧
            rv.ret = false)) ∧
      (r.ret = false →
        r.state.m_window = {} ∧ r.state.m_initialized = false ∧ r.state.m_running = false ∧
        r.state.m_vulkanContext.m_device = none) ∧
      (r.ret = true → r.state.m_initialized = true) := by
  have hw : ∀ w : Window, w.shutdown.state = {} := by
    intro w
    rcases w with ⟨h, a, b, c⟩
    cases h <;> simp [Window.shutdown]
  unfold Engine.initialize
  cases hwr : ( Window.initialize P self config.window {}).ret
  · have hst := Window.initialize_false_state P self config.window hwr
    simp [hwr, hst]
  · simp only [hwr, Bool.not_true, Bool.false_eq_true, if_false]
    obtain ⟨rv, hrv, hfail⟩ := VulkanContext.initialize_returns P
      { applicationName := config.applicationName,
        enableValidation := config.enableValidation }
      ( Window.initialize P self config.window {}).state
    simp only [hrv]
    cases hret : rv.ret
    · have hf := hfail hret
      simp [hw, hf, hret]
    · simp [hret]

/-- C2 fails on a host that reports no physical device: `Engine::initialize`
returns false with the window torn down and the ready flag false, but the
context still holds the instance and the surface it created; no destroy call
of the graphics API was issued, the window and the windowing library went first,
and `Engine::shutdown` afterwards does nothing, the engine not being
initialised. -/
theorem Engine.initialize_failure_leaves_context :
    ∃ r, Engine.initialize hostNoGpu 1 {} {} = some r ∧ r.ret = false ∧
      r.state.m_window = {} ∧ r.state.m_initialized = false ∧
      r.state.m_vulkanContext.m_instance = some 1 ∧
      r.state.m_vulkanContext.m_surface = some 3 ∧
      r.calls.filterMap Call.creates = [(Resource.vkInstance, 1), (Resource.surface, 3)] ∧
      r.calls.filterMap Call.destroys = [] ∧
      r.calls.getLast? = some Call.glfwTerminate ∧
      (Glfw.run {} r.calls).isLive 10 = false ∧
      r.state.shutdown hostNoGpu = ⟨r.state, []⟩ :=
  ⟨_, rfl, by decide⟩

/-! ## Moving a Window -/

/-- Setting a user pointer keeps every window alive. -/
theorem Glfw.isLive_setUserPointer (g : Glfw) (h k : Handle) (p : Addr) :
    (g.apply (Call.glfwSetWindowUserPointer h p)).isLive k = g.isLive k := by
  rcases g with ⟨ini, ws⟩
  simp only [Glfw.apply, Glfw.isLive]
  induction ws with
  | nil => rfl
  | cons e rest ih =>
    simp only [List.map_cons, List.any_cons, ih]
    by_cases he : e.1 = h <;> simp [he]

/-- The user pointer of a live window is the one last set. -/
theorem Glfw.userPointer_setUserPointer (g : Glfw) (h : Handle) (p : Addr)
    (hlive : g.isLive h = true) :
    (g.apply (Call.glfwSetWindowUserPointer h p)).userPointer h = some p := by
  rcases g with ⟨ini, ws⟩
  simp only [Glfw.apply, Glfw.isLive, Glfw.userPointer] at hlive ⊢
  induction ws with
  | nil => simp at hlive
  | cons e rest ih =>
    by_cases he : e.1 = h
    · simp [he]
    · have hrest : (rest.any fun e => e.1 == h) = true := by
        simpa [he] using hlive
      simpa [he] using ih hrest

/-- Move construction, and move assignment onto a destination that holds no
window, transfer ownership: the destination gets the source's handle, size and
resize flag, the source is reset, the window stays alive, its user pointer is
the destination, and a resize event for it updates the destination only. -/
theorem Window.move_transfers (g : Glfw) (self otherAddr : Addr) (this other : Window)
    (h : Handle) (hh : other.m_window = some h) (hlive : g.isLive h = true)
    (hne : self ≠ otherAddr) (hclosed : this.m_window = none) :
    ∀ mv ∈ [Window.moveConstruct self other, Window.moveAssign self otherAddr this other],
      mv.dst = other ∧ mv.src = {} ∧ (g.run mv.calls).isLive h = true ∧
      (g.run mv.calls).userPointer h = some self ∧
      ∀ (heap : Addr → Window) (width height : Int),
        Window.framebufferResizeCallback (g.run mv.calls) heap h width height self =
            { heap self with m_framebufferResized := true, m_width := toUInt32 width,
                             m_height := toUInt32 height } ∧
          ∀ a, a ≠ self →
            Window.framebufferResizeCallback (g.run mv.calls) heap h width height a = heap a := by
  have hcalls : ∀ mv ∈ [Window.moveConstruct self other,
      Window.moveAssign self otherAddr this other],
      mv.dst = other ∧ mv.src = {} ∧ mv.calls = [Call.glfwSetWindowUserPointer h self] := by
    intro mv hmv
    simp only [List.mem_cons, List.mem_singleton, List.not_mem_nil, or_false] at hmv
    rcases other with ⟨ow, oa, ob, oc⟩
    simp only at hh
    subst hh
    rcases hmv with rfl | rfl
    · simp [Window.moveConstruct, Window.repoint]
    · simp [Window.moveAssign, hne, Window.shutdown, hclosed, Window.repoint]
  intro mv hmv
  obtain ⟨hd, hs, hc⟩ := hcalls mv hmv
  have hrun : g.run mv.calls = g.apply (Call.glfwSetWindowUserPointer h self) := by
    simp [hc, Glfw.run]
  have hptr := Glfw.userPointer_setUserPointer g h self hlive
  refine ⟨hd, hs, ?_, ?_, ?_⟩
  · rw [hrun, Glfw.isLive_setUserPointer]; exact hlive
  · rw [hrun]; exact hptr
  · intro heap width height
    rw [hrun]
    simp only [Window.framebufferResizeCallback, hptr]
    exact ⟨by simp, fun a ha => by simp [ha]⟩

/-- `Window.move_transfers` at a concrete pair: window `b` moved into a new
object at address 3. -/
theorem Window.move_transfers_witness :
    (glfwTwoWindows.run ( Window.moveConstruct 3 (heapTwoWindows 2)).calls).userPointer 20
      = some 3 :=
  ( Window.move_transfers glfwTwoWindows 3 2 {} (heapTwoWindows 2) 20 (by decide) (by decide)
      (by decide) rfl ( Window.moveConstruct 3 (heapTwoWindows 2)) (by simp)).2.2.2.1

/-- C9 fails for move assignment onto a destination that holds an open window.
With window `a` (handle 10) and window `b` (handle 20, resized to 800 x 600) both
open, `a = std::move(b)` gives `a` the handle, size and flag of `b` and resets
`b`, but the `shutdown` it runs on `a` first calls `glfwTerminate`, which destroys
every window of the library: handle 20 is no longer a live window, the library
is uninitialised, the window has no user pointer, and a resize event for handle
20 changes neither object. -/
theorem Window.moveAssign_open_destination :
    windowA.ret = true ∧ windowB.ret = true ∧
    glfwTwoWindows.isLive 10 = true ∧ glfwTwoWindows.isLive 20 = true ∧
    glfwTwoWindows.userPointer 20 = some 2 ∧
    heapTwoWindows 1 = ⟨some 10, 1280, 720, false⟩ ∧
    heapTwoWindows 2 = ⟨some 20, 800, 600, true⟩ ∧
    moveBontoA.dst = ⟨some 20, 800, 600, true⟩ ∧ moveBontoA.src = {} ∧
    moveBontoA.calls =
      [Call.glfwDestroyWindow 10, Call.glfwTerminate, Call.glfwSetWindowUserPointer 20 1] ∧
    glfwAfterMove.isLive 20 = false ∧ glfwAfterMove.initialized = false ∧
    glfwAfterMove.userPointer 20 = none ∧
    Window.framebufferResizeCallback glfwAfterMove heapAfterMove 20 1024 768 1
      = moveBontoA.dst ∧
    Window.framebufferResizeCallback glfwAfterMove heapAfterMove 20 1024 768 2
      = moveBontoA.src := by
  decide

/-! ## Queue-creation requests -/

/-- The family indices of the requests are the `std::set` built by inserting
the graphics index and then the present index. -/
theorem uniqueQueueFamilies_eq_insert (g p : Nat) :
    uniqueQueueFamilies g p = stdSetInsert p (stdSetInsert g []) := by
  unfold uniqueQueueFamilies
  simp only [stdSetInsert]
  by_cases h1 : g = p
  · subst h1; simp
  · by_cases h2 : g < p
    · have h3 : ¬ p < g := by omega
      have h4 : ¬ p = g := fun h => h1 h.symm
      simp [h1, h2, h3, h4, stdSetInsert]
    · have h3 : p < g := by omega
      simp [h1, h2, h3]

/-- C11. For every pair of family indices `g`, `p` resolved for the selected
device, `createLogicalDevice` returns, and the device creation it requests
carries queue-creation requests whose family indices are the set of `g` and `p`:
no index twice, an index is requested exactly when it is `g` or `p`, one request
when `g = p` and two when `g ≠ p`, and every request asks for one queue. -/
theorem VulkanContext.createLogicalDevice_queue_requests (P : Platform) (s : VulkanContext)
    (pd : PhysicalDevice) (g p : Nat) (hpd : s.m_physicalDevice = some pd)
    (hq : findQueueFamilies pd = ⟨some g, some p⟩) :
    ∃ r info res, s.createLogicalDevice P = some r ∧
      r.calls.head? = some (Call.vkCreateDevice pd info res) ∧
      (∀ c ∈ r.calls, ∀ pd2 info2 res2, c = Call.vkCreateDevice pd2 info2 res2 → info2 = info) ∧
      info.queueCreateInfos.map (fun q => q.queueFamilyIndex) =
        stdSetInsert p (stdSetInsert g []) ∧
      (info.queueCreateInfos.map fun q => q.queueFamilyIndex).Nodup ∧
      (∀ x, x ∈ (info.queueCreateInfos.map fun q => q.queueFamilyIndex) ↔ (x = g ∨ x = p)) ∧
      info.queueCreateInfos.length = (if g = p then 1 else 2) ∧
      ∀ q ∈ info.queueCreateInfos, q.queueCount = 1 := by
  have hinfo : ∀ v : Bool,
      (deviceCreateInfo v g p).queueCreateInfos.map (fun q => q.queueFamilyIndex) =
          stdSetInsert p (stdSetInsert g []) ∧
      ((deviceCreateInfo v g p).queueCreateInfos.map fun q => q.queueFamilyIndex).Nodup ∧
      (∀ x, x ∈ ((deviceCreateInfo v g p).queueCreateInfos.map fun q => q.queueFamilyIndex) ↔
        (x = g ∨ x = p)) ∧
      (deviceCreateInfo v g p).queueCreateInfos.length = (if g = p then 1 else 2) ∧
      ∀ q ∈ (deviceCreateInfo v g p).queueCreateInfos, q.queueCount = 1 := by
    intro v
    have hmap : (deviceCreateInfo v g p).queueCreateInfos.map (fun q => q.queueFamilyIndex) =
        uniqueQueueFamilies g p := by
      simp [deviceCreateInfo, List.map_map, Function.comp_def]
    refine ⟨by rw [hmap, uniqueQueueFamilies_eq_insert], ?_, ?_, ?_, ?_⟩
    · rw [hmap]
      unfold uniqueQueueFamilies
      split_ifs with h1 h2
      · simp
      · simp [h1]
      · simp; omega
    · intro x
      rw [hmap]
      unfold uniqueQueueFamilies
      split_ifs with h1 h2
      · simp [h1]
      · simp
      · simp; tauto
    · simp only [deviceCreateInfo, List.length_map]
      unfold uniqueQueueFamilies
      split_ifs <;> simp
    · intro q hqm
      simp only [deviceCreateInfo, List.mem_map] at hqm
      obtain ⟨x, -, rfl⟩ := hqm
      rfl
  unfold VulkanContext.createLogicalDevice
  simp only [hpd, hq]
  cases hd : P.vkCreateDevice pd (deviceCreateInfo s.m_validationEnabled g p) with
  | none =>
    refine ⟨_, deviceCreateInfo s.m_validationEnabled g p, none, rfl, rfl, ?_,
      hinfo s.m_validationEnabled⟩
    intro c hc pd2 info2 res2 heq
    simp only [List.mem_singleton] at hc
    rw [hc] at heq
    cases heq
    rfl
  | some d =>
    refine ⟨_, deviceCreateInfo s.m_validationEnabled g p, some d, rfl, rfl, ?_,
      hinfo s.m_validationEnabled⟩
    intro c hc pd2 info2 res2 heq
    simp only [List.mem_cons, List.mem_singleton, List.not_mem_nil, or_false] at hc
    rcases hc with rfl | rfl | rfl
    · cases heq; rfl
    · cases heq
    · cases heq

/-- C11, at the single-family device of `hostOneGpu` (`g = p = 0`). -/
theorem VulkanContext.createLogicalDevice_queue_requests_witness :
    findQueueFamilies gpu0 = ⟨some 0, some 0⟩ ∧
    ∃ r info res,
      ({ m_physicalDevice := some gpu0 } : VulkanContext).createLogicalDevice hostOneGpu
        = some r ∧
      r.calls.head? = some (Call.vkCreateDevice gpu0 info res) ∧
      (∀ c ∈ r.calls, ∀ pd2 info2 res2, c = Call.vkCreateDevice pd2 info2 res2 → info2 = info) ∧
      info.queueCreateInfos.map (fun q => q.queueFamilyIndex) =
        stdSetInsert 0 (stdSetInsert 0 []) ∧
      (info.queueCreateInfos.map fun q => q.queueFamilyIndex).Nodup ∧
      (∀ x, x ∈ (info.queueCreateInfos.map fun q => q.queueFamilyIndex) ↔ (x = 0 ∨ x = 0)) ∧
      info.queueCreateInfos.length = (if 0 = 0 then 1 else 2) ∧
      ∀ q ∈ info.queueCreateInfos, q.queueCount = 1 :=
  ⟨by decide,
    VulkanContext.createLogicalDevice_queue_requests hostOneGpu _ gpu0 0 0 rfl (by decide)⟩

/-! ## The debug callback -/

/-- C14. For every severity value and message, the callback returns `VK_FALSE`
and writes the prefix, one label, the message and one newline, in this order and
all to one stream: the error stream exactly when the severity is at least the
warning bit (labelled `ERROR` from the error bit on, `WARNING` below it),
standard output otherwise (labelled `INFO` from the info bit on, `VERBOSE` below
it); nothing reaches the other stream. -/
theorem debugCallback_routing (messageSeverity : Int) (message : String) :
    (debugCallback messageSeverity message).ret = VK_FALSE ∧
    ((∃ w ∈ (debugCallback messageSeverity message).written, w.1 = OutStream.cerr) ↔
      VK_DEBUG_UTILS_MESSAGE_SEVERITY_WARNING_BIT_EXT ≤ messageSeverity) ∧
    ((∃ w ∈ (debugCallback messageSeverity message).written, w.1 = OutStream.cout) ↔
      messageSeverity < VK_DEBUG_UTILS_MESSAGE_SEVERITY_WARNING_BIT_EXT) ∧
    (VK_DEBUG_UTILS_MESSAGE_SEVERITY_WARNING_BIT_EXT ≤ messageSeverity →
      piecesOn OutStream.cerr (debugCallback messageSeverity message).written =
        ["[Vulkan] ",
          if VK_DEBUG_UTILS_MESSAGE_SEVERITY_ERROR_BIT_EXT ≤ messageSeverity then "ERROR: "
          else "WARNING: ",
          message, "\n"] ∧
      piecesOn OutStream.cout (debugCallback messageSeverity message).written = []) ∧
    (messageSeverity < VK_DEBUG_UTILS_MESSAGE_SEVERITY_WARNING_BIT_EXT →
      piecesOn OutStream.cout (debugCallback messageSeverity message).written =
        ["[Vulkan] ",
          if VK_DEBUG_UTILS_MESSAGE_SEVERITY_INFO_BIT_EXT ≤ messageSeverity then "INFO: "
          else "VERBOSE: ",
          message, "\n"] ∧
      piecesOn OutStream.cerr (debugCallback messageSeverity message).written = []) ∧
    (debugCallback messageSeverity message).written.length = 4 := by
  unfold debugCallback
  simp only [VK_DEBUG_UTILS_MESSAGE_SEVERITY_ERROR_BIT_EXT,
    VK_DEBUG_UTILS_MESSAGE_SEVERITY_WARNING_BIT_EXT,
    VK_DEBUG_UTILS_MESSAGE_SEVERITY_INFO_BIT_EXT, ge_iff_le]
  by_cases h1 : (0x1000 : Int) ≤ messageSeverity
  · have hw : (0x100 : Int) ≤ messageSeverity := by omega
    have hn : ¬ messageSeverity < (0x100 : Int) := by omega
    simp [piecesOn, hw, hn, h1]
  · by_cases h2 : (0x100 : Int) ≤ messageSeverity
    · have hn : ¬ messageSeverity < (0x100 : Int) := by omega
      simp [piecesOn, h2, hn, h1]
    · have hn : messageSeverity < (0x100 : Int) := by omega
      by_cases h3 : (0x10 : Int) ≤ messageSeverity
      · simp [piecesOn, h2, hn, h3, h1]
      · simp [piecesOn, h2, hn, h3, h1]

/-! ## Engine::run and Engine::isRunning -/

/-- `Engine::tick` changes neither flag of the engine nor the window handle. -/
theorem Engine.tick_keeps (E : WindowEvents) (k : Nat) (e : Engine) :
    (e.tick E k).state.m_running = e.m_running ∧
    (e.tick E k).state.m_initialized = e.m_initialized ∧
    (e.tick E k).state.m_window.m_window = e.m_window.m_window := by
  have hfold : ∀ (sizes : List (Int × Int)) (w : Window),
      (sizes.foldl
        (fun app size =>
          { app with m_framebufferResized := true, m_width := toUInt32 size.1,
                     m_height := toUInt32 size.2 }) w).m_window = w.m_window := by
    intro sizes
    induction sizes with
    | nil => intro w; rfl
    | cons x rest ih => intro w; simp only [List.foldl_cons]; rw [ih]
  unfold Engine.tick
  simp only []
  split_ifs <;> simp [Window.pollEvents, Window.resetResizeFlag, hfold]

/-- The loop of `Engine::run`, entered with the running flag set, can only be
left with the flag still set, at a loop test where the window asks to be
closed. -/
theorem Engine.runLoop_exit (E : WindowEvents) :
    ∀ (fuel k : Nat) (e : Engine) (calls : List Call) (r : Effect Engine),
      e.m_running = true → Engine.runLoop E fuel k e calls = some r →
      r.state.m_running = true ∧ r.state.m_initialized = e.m_initialized ∧
      ∃ n, k ≤ n ∧ r.state.m_window.shouldClose E n = true := by
  intro fuel
  induction fuel with
  | zero => intro k e calls r _ h; simp [Engine.runLoop] at h
  | succ fuel ih =>
    intro k e calls r hrun h
    rw [Engine.runLoop] at h
    cases hc : e.m_window.shouldClose E k
    · simp only [hrun, hc, Bool.not_false, Bool.and_self, if_true] at h
      have hk := Engine.tick_keeps E k e
      obtain ⟨h1, h2, n, hn, h3⟩ := ih (k + 1) _ _ r (by rw [hk.1]; exact hrun) h
      exact ⟨h1, by rw [h2, hk.2.1], n, by omega, h3⟩
    · simp only [hrun, hc, Bool.not_true, Bool.and_false, Bool.false_eq_true, if_false,
        Option.some.injEq] at h
      subst h
      exact ⟨hrun, rfl, k, le_refl k, hc⟩

/-- The loop returns once the window asks to be closed, given fuel for the loop
tests up to that one. -/
theorem Engine.runLoop_returns (E : WindowEvents) (h : Handle) :
    ∀ (n k : Nat) (e : Engine) (calls : List Call),
      e.m_window.m_window = some h → E.glfwWindowShouldClose (k + n) h = true →
      ∃ r, Engine.runLoop E (n + 1) k e calls = some r := by
  intro n
  induction n with
  | zero =>
    intro k e calls hh hclose
    rw [Engine.runLoop]
    have hc : e.m_window.shouldClose E k = true := by
      simpa [Window.shouldClose, hh] using hclose
    simp [hc]
  | succ n ih =>
    intro k e calls hh hclose
    rw [Engine.runLoop]
    split_ifs with hcont
    · have hk := Engine.tick_keeps E k e
      exact ih (k + 1) _ _ (by rw [hk.2.2]; exact hh)
        (by rw [show k + 1 + n = k + (n + 1) by omega]; exact hclose)
    · exact ⟨_, rfl⟩

/-- What holds of `Engine::isRunning`: it is false on a fresh engine; a `run`
on an engine that is not initialised returns at once and changes nothing; on an
initialised engine `run` returns once the window asks to be closed, and whenever
it returns the running flag is still set; `shutdown` of an initialised engine
clears it. -/
theorem Engine.run_keeps_running_flag (E : WindowEvents) (fuel : Nat) (e : Engine) :
    ({} : Engine).isRunning = false ∧
    (e.m_initialized = false → e.run E fuel = some ⟨e, []⟩) ∧
    (e.m_initialized = true → ∀ r, e.run E fuel = some r → r.state.isRunning = true) ∧
    (e.m_initialized = true →
      ∀ h n, e.m_window.m_window = some h → E.glfwWindowShouldClose n h = true →
        ∃ r, e.run E (n + 1) = some r) ∧
    (e.m_initialized = true → ∀ P, (e.shutdown P).state.isRunning = false) := by
  refine ⟨rfl, ?_, ?_, ?_, ?_⟩
  · intro hi
    simp [Engine.run, hi]
  · intro hi r hr
    rcases e with ⟨w, v, rn, ini⟩
    simp only at hi
    subst hi
    unfold Engine.run at hr
    simp only [Bool.not_true, Bool.false_eq_true, if_false] at hr
    cases hl : Engine.runLoop E fuel 0 ⟨w, v, true, true⟩ [] with
    | none => rw [hl] at hr; cases hr
    | some looped =>
      rw [hl] at hr
      cases hr
      exact (Engine.runLoop_exit E fuel 0 _ _ looped rfl hl).1
  · intro hi h n hh hclose
    rcases e with ⟨w, v, rn, ini⟩
    simp only at hi hh
    subst hi
    unfold Engine.run
    simp only [Bool.not_true, Bool.false_eq_true, if_false]
    obtain ⟨r, hr⟩ := Engine.runLoop_returns E h n 0 ⟨w, v, true, true⟩ [] hh
      (by simpa using hclose)
    rw [hr]
    exact ⟨_, rfl⟩
  · intro hi P
    simp [Engine.shutdown, hi, Engine.isRunning]

/-- `Engine.run_keeps_running_flag` at the engine initialised on `hostOneGpu`,
with a window that asks to be closed before the third frame. -/
theorem Engine.run_keeps_running_flag_witness :
    ∃ e r, Engine.initialize hostOneGpu 1 {} {} = some ⟨true, e, r⟩ ∧
      e.m_initialized = true ∧
      ∀ q, e.run closeAfterTwoFrames 3 = some q → q.state.isRunning = true :=
  ⟨_, _, rfl, rfl,
    fun q hq => ( Engine.run_keeps_running_flag closeAfterTwoFrames 3 _).2.2.1 rfl q hq⟩

/-- C13 fails once `run` has returned.  On the engine initialised on
`hostOneGpu`, `run` with a window that asks to be closed at once returns after
waiting for the device, and with a window closed before the third frame returns
after two polls; in both cases `isRunning` is true afterwards, while it was false
before the run and is false again only after `shutdown`. -/
theorem Engine.isRunning_after_run :
    ∃ e r, Engine.initialize hostOneGpu 1 {} {} = some ⟨true, e, r⟩ ∧
      e.isRunning = false ∧
      (e.run closeAtOnce 1).map (fun q => (q.state.isRunning, q.calls))
        = some (true, [Call.vkDeviceWaitIdle 4]) ∧
      (e.run closeAfterTwoFrames 3).map (fun q => (q.state.isRunning, q.calls))
        = some (true, [Call.glfwPollEvents, Call.glfwPollEvents, Call.vkDeviceWaitIdle 4]) ∧
      (e.run closeAfterTwoFrames 3).map
          (fun q => (q.state.shutdown hostOneGpu).state.isRunning) = some false :=
  ⟨_, _, rfl, by decide⟩

/-! ## The resource chain -/

/-- `VulkanContext::initialize` returns on every context whose physical-device
handle is null. -/
theorem VulkanContext.initialize_total (P : Platform) (config : VulkanContextConfig)
    (window : Window) (s : VulkanContext) (hnull : s.m_physicalDevice = none) :
    ∃ r, VulkanContext.initialize P config window s = some r := by
  obtain ⟨sA, info, -, -, hout⟩ := VulkanContext.initialize_outcome P config window s hnull
  rcases hout with ⟨-, h⟩ | ⟨i, sB, cm, -, -, hout⟩
  · exact ⟨_, h⟩
  · rcases hout with ⟨-, h⟩ | ⟨f, sC, pre, -, -, -, hout⟩
    · exact ⟨_, h⟩
    · rcases hout with ⟨-, h⟩ | ⟨pd, g, p, sD, dinfo, -, -, -, -, -, hout⟩
      · exact ⟨_, h⟩
      · rcases hout with ⟨-, h⟩ | ⟨d, -, h⟩
        · exact ⟨_, h⟩
        · exact ⟨_, h⟩

/-- Whatever step `initialize` fails at, or if it succeeds, a context that held
no handle before holds a chain of handles afterwards. -/
theorem VulkanContext.initialize_chain (P : Platform) (config : VulkanContextConfig)
    (window : Window) (qfi : QueueFamilyIndices) (ve : Bool) (r : Step VulkanContext)
    (h : VulkanContext.initialize P config window
      { m_queueFamilyIndices := qfi, m_validationEnabled := ve } = some r) :
    r.state.chainInvariant = true := by
  obtain ⟨sA, info, hsA, -, hout⟩ := VulkanContext.initialize_outcome P config window
    { m_queueFamilyIndices := qfi, m_validationEnabled := ve } rfl
  subst hsA
  rcases hout with ⟨-, h2⟩ | ⟨i, sB, cm, -, hmsg, hout⟩
  · rw [h] at h2; cases h2
    simp [VulkanContext.chainInvariant]
  · have hB : sB.chainInvariant = true ∧ sB.m_instance = some i ∧ sB.m_surface = none ∧
        sB.m_physicalDevice = none ∧ sB.m_device = none ∧ sB.m_graphicsQueue = none ∧
        sB.m_presentQueue = none := by
      rcases hmsg with ⟨-, -, hsB⟩ | ⟨-, res, -, hsB⟩ | ⟨-, m, -, hsB⟩ <;> subst hsB <;>
        simp [VulkanContext.chainInvariant]
    rcases sB with ⟨bi, bm, bf, bpd, bd, bgq, bpq, bqfi, bve⟩
    simp only at hB
    obtain ⟨-, rfl, rfl, rfl, rfl, rfl, rfl⟩ := hB
    rcases hout with ⟨-, h2⟩ | ⟨f, sC, pre, -, hsC, -, hout⟩
    · rw [h] at h2; cases h2
      simp [VulkanContext.chainInvariant]
    · subst hsC
      rcases hout with ⟨-, h2⟩ | ⟨pd, g, p, sD, dinfo, -, -, -, hsD, -, hout⟩
      · rw [h] at h2; cases h2
        simp [VulkanContext.chainInvariant]
      · subst hsD
        rcases hout with ⟨-, h2⟩ | ⟨d, -, h2⟩
        · rw [h] at h2; cases h2
          simp [VulkanContext.chainInvariant]
        · rw [h] at h2; cases h2
          simp [VulkanContext.chainInvariant]

/-- C12. In every state of a context reachable from a fresh one by `initialize`
and `shutdown`, with `initialize` run only on a fresh context or after a
`shutdown`, the resource chain holds: a queue handle only with a logical device,
a logical device only with a physical device, a physical device only with a
surface, a surface or a debug messenger only with an instance, whether
`initialize` succeeded or failed at any step.  Where `initialize` may run next
(fresh, or after `shutdown`) every handle is null and `initialize` returns on
every platform, so each such step does lead to a state. -/
theorem VulkanContext.chainInvariant_reachable (b : Bool) (s : VulkanContext)
    (h : VulkanContext.Reachable b s) :
    s.chainInvariant = true ∧
    (b = false →
      s = { m_queueFamilyIndices := s.m_queueFamilyIndices,
            m_validationEnabled := s.m_validationEnabled } ∧
      ∀ (P : Platform) (config : VulkanContextConfig) (window : Window),
        ∃ r, VulkanContext.initialize P config window s = some r) := by
  induction h with
  | fresh =>
    exact ⟨by decide, fun _ => ⟨rfl, fun P config window =>
      VulkanContext.initialize_total P config window {} rfl⟩⟩
  | afterShutdown P b s _ _ =>
    rw [VulkanContext.shutdown_state]
    exact ⟨by simp [VulkanContext.chainInvariant], fun _ => ⟨rfl, fun Q config window =>
      VulkanContext.initialize_total Q config window _ rfl⟩⟩
  | afterInitialize P config window s r _ hinit ih =>
    refine ⟨?_, fun hb => by cases hb⟩
    have hidle := (ih.2 rfl).1
    rw [hidle] at hinit
    exact VulkanContext.initialize_chain P config window _ _ r hinit

/-- C12, at the state left by an `initialize` that failed for want of a
physical device, and at the state after a successful `initialize`, a `shutdown`
and a second `initialize`. -/
theorem VulkanContext.chainInvariant_reachable_witness :
    (∃ r, VulkanContext.initialize hostNoGpu {} openWindow {} = some r ∧ r.ret = false ∧
      VulkanContext.Reachable true r.state ∧ r.state.m_surface = some 3 ∧
      r.state.chainInvariant = true) ∧
    (∃ r1 r2, VulkanContext.initialize hostValidation {} openWindow {} = some r1 ∧
      VulkanContext.initialize hostOneGpu {} openWindow (r1.state.shutdown hostValidation).state
        = some r2 ∧
      r2.state.m_device = some 4 ∧ r2.state.chainInvariant = true) :=
  ⟨⟨_, rfl, rfl,
      VulkanContext.Reachable.afterInitialize hostNoGpu {} openWindow {} _
        VulkanContext.Reachable.fresh rfl,
      rfl,
      ( VulkanContext.chainInvariant_reachable true _
        ( VulkanContext.Reachable.afterInitialize hostNoGpu {} openWindow {} _
          VulkanContext.Reachable.fresh rfl)).1⟩,
    ⟨_, _, rfl, rfl, rfl,
      ( VulkanContext.chainInvariant_reachable true _
        ( VulkanContext.Reachable.afterInitialize hostOneGpu {} openWindow _ _
          ( VulkanContext.Reachable.afterShutdown hostValidation true _
            ( VulkanContext.Reachable.afterInitialize hostValidation {} openWindow {} _
              VulkanContext.Reachable.fresh rfl))
          rfl)).1⟩⟩

/-! ## Soundness of the queue-family scan -/

/-- One iteration of the scan: the indices after family `k` was looked at, and
how the loop goes on from them, whatever families follow. -/
theorem findQueueFamiliesLoop_step (f : QueueFamilyProperties) (k : Nat)
    (indices : QueueFamilyIndices) :
    ∃ next : QueueFamilyIndices,
      (∀ rest, findQueueFamiliesLoop (f :: rest) k indices =
        if next.isComplete then next else findQueueFamiliesLoop rest (k + 1) next) ∧
      ((next.graphicsFamily = some k ∧ f.queueFlags &&& VK_QUEUE_GRAPHICS_BIT ≠ 0) ∨
        (next.graphicsFamily = indices.graphicsFamily ∧
          f.queueFlags &&& VK_QUEUE_GRAPHICS_BIT = 0)) ∧
      ((next.presentFamily = some k ∧ f.presentSupport = true) ∨
        (next.presentFamily = indices.presentFamily ∧ f.presentSupport = false)) := by
  by_cases hg : f.queueFlags &&& VK_QUEUE_GRAPHICS_BIT = 0 <;>
    cases hp : f.presentSupport
  · exact ⟨indices, fun rest => by simp [findQueueFamiliesLoop, hg, hp], Or.inr ⟨rfl, hg⟩,
      Or.inr ⟨rfl, rfl⟩⟩
  · exact ⟨{ indices with presentFamily := some k },
      fun rest => by simp [findQueueFamiliesLoop, hg, hp], Or.inr ⟨rfl, hg⟩, Or.inl ⟨rfl, rfl⟩⟩
  · exact ⟨{ indices with graphicsFamily := some k },
      fun rest => by simp [findQueueFamiliesLoop, hg, hp], Or.inl ⟨rfl, hg⟩, Or.inr ⟨rfl, rfl⟩⟩
  · exact ⟨{ graphicsFamily := some k, presentFamily := some k },
      fun rest => by simp [findQueueFamiliesLoop, hg, hp], Or.inl ⟨rfl, hg⟩, Or.inl ⟨rfl, rfl⟩⟩

/-- The indices the scan returns: each was known before the scan or is the
position of a family with the capability, and a field still empty means that no
family of the list has the capability. -/
theorem findQueueFamiliesLoop_sound (families : List QueueFamilyProperties) :
    ∀ (k : Nat) (indices : QueueFamilyIndices),
      (∀ i, (findQueueFamiliesLoop families k indices).graphicsFamily = some i →
        indices.graphicsFamily = some i ∨
          (k ≤ i ∧ ∃ f, families[i - k]? = some f ∧
            f.queueFlags &&& VK_QUEUE_GRAPHICS_BIT ≠ 0)) ∧
      (∀ j, (findQueueFamiliesLoop families k indices).presentFamily = some j →
        indices.presentFamily = some j ∨
          (k ≤ j ∧ ∃ f, families[j - k]? = some f ∧ f.presentSupport = true)) ∧
      ((findQueueFamiliesLoop families k indices).graphicsFamily = none →
        indices.graphicsFamily = none ∧
          ∀ f ∈ families, f.queueFlags &&& VK_QUEUE_GRAPHICS_BIT = 0) ∧
      ((findQueueFamiliesLoop families k indices).presentFamily = none →
        indices.presentFamily = none ∧ ∀ f ∈ families, f.presentSupport = false) := by
  induction families with
  | nil => intro k indices; simp [findQueueFamiliesLoop]
  | cons f rest ih =>
    intro k indices
    obtain ⟨next, hloop, hg, hp⟩ := findQueueFamiliesLoop_step f k indices
    rw [hloop rest]
    by_cases hc : next.isComplete = true
    · simp only [hc, if_true]
      have hsome : next.graphicsFamily.isSome = true ∧ next.presentFamily.isSome = true := by
        simpa [QueueFamilyIndices.isComplete] using hc
      refine ⟨?_, ?_, ?_, ?_⟩
      · intro i hi
        rcases hg with ⟨h1, h2⟩ | ⟨h1, -⟩
        · rw [h1] at hi
          cases hi
          exact Or.inr ⟨le_refl k, f, by simp, h2⟩
        · exact Or.inl (by rw [← h1]; exact hi)
      · intro j hj
        rcases hp with ⟨h1, h2⟩ | ⟨h1, -⟩
        · rw [h1] at hj
          cases hj
          exact Or.inr ⟨le_refl k, f, by simp, h2⟩
        · exact Or.inl (by rw [← h1]; exact hj)
      · intro hn
        rw [hn] at hsome
        simp at hsome
      · intro hn
        rw [hn] at hsome
        simp at hsome
    · simp only [hc, if_false]
      obtain ⟨ihg, ihp, ihgn, ihpn⟩ := ih (k + 1) next
      refine ⟨?_, ?_, ?_, ?_⟩
      · intro i hi
        rcases ihg i hi with h | ⟨hk, f2, hf2, hcap⟩
        · rcases hg with ⟨h1, h2⟩ | ⟨h1, -⟩
          · rw [h1] at h
            cases h
            exact Or.inr ⟨le_refl k, f, by simp, h2⟩
          · exact Or.inl (by rw [← h1]; exact h)
        · refine Or.inr ⟨by omega, f2, ?_, hcap⟩
          rw [show i - k = (i - (k + 1)) + 1 by omega, List.getElem?_cons_succ]
          exact hf2
      · intro j hj
        rcases ihp j hj with h | ⟨hk, f2, hf2, hcap⟩
        · rcases hp with ⟨h1, h2⟩ | ⟨h1, -⟩
          · rw [h1] at h
            cases h
            exact Or.inr ⟨le_refl k, f, by simp, h2⟩
          · exact Or.inl (by rw [← h1]; exact h)
        · refine Or.inr ⟨by omega, f2, ?_, hcap⟩
          rw [show j - k = (j - (k + 1)) + 1 by omega, List.getElem?_cons_succ]
          exact hf2
      · intro hn
        obtain ⟨h1, h2⟩ := ihgn hn
        rcases hg with ⟨h3, -⟩ | ⟨h3, h4⟩
        · rw [h3] at h1; cases h1
        · refine ⟨by rw [← h3]; exact h1, ?_⟩
          intro x hx
          rcases List.mem_cons.mp hx with rfl | hx
          · exact h4
          · exact h2 x hx
      · intro hn
        obtain ⟨h1, h2⟩ := ihpn hn
        rcases hp with ⟨h3, -⟩ | ⟨h3, h4⟩
        · rw [h3] at h1; cases h1
        · refine ⟨by rw [← h3]; exact h1, ?_⟩
          intro x hx
          rcases List.mem_cons.mp hx with rfl | hx
          · exact h4
          · exact h2 x hx

/-- Where the scan stops: entered at family `k` with incomplete indices that
all lie below `k`, a scan ending with both indices `i` and `j` looked at the
families up to position `max i j` and no further: the same result comes from
the list cut after that family, and no shorter cut gives a complete result. -/
theorem findQueueFamiliesLoop_stop (families : List QueueFamilyProperties) :
    ∀ (k : Nat) (indices : QueueFamilyIndices),
      indices.isComplete = false →
      (∀ x, indices.graphicsFamily = some x → x < k) →
      (∀ x, indices.presentFamily = some x → x < k) →
      ∀ i j, findQueueFamiliesLoop families k indices = ⟨some i, some j⟩ →
        k ≤ max i j ∧
        findQueueFamiliesLoop (families.take (max i j + 1 - k)) k indices = ⟨some i, some j⟩ ∧
        ∀ n, n + k ≤ max i j →
          (findQueueFamiliesLoop (families.take n) k indices).isComplete = false := by
  induction families with
  | nil =>
    intro k indices hinc _ _ i j h
    simp only [findQueueFamiliesLoop] at h
    subst h
    simp [QueueFamilyIndices.isComplete] at hinc
  | cons f rest ih =>
    intro k indices hinc hgk hpk i j h
    obtain ⟨next, hloop, hg, hp⟩ := findQueueFamiliesLoop_step f k indices
    have hnextg : ∀ x, next.graphicsFamily = some x → x < k + 1 := by
      intro x hx
      rcases hg with ⟨h1, -⟩ | ⟨h1, -⟩
      · rw [h1] at hx; cases hx; omega
      · rw [h1] at hx; have := hgk x hx; omega
    have hnextp : ∀ x, next.presentFamily = some x → x < k + 1 := by
      intro x hx
      rcases hp with ⟨h1, -⟩ | ⟨h1, -⟩
      · rw [h1] at hx; cases hx; omega
      · rw [h1] at hx; have := hpk x hx; omega
    rw [hloop rest] at h
    by_cases hc : next.isComplete = true
    · simp only [hc, if_true] at h
      subst h
      have hmax : max i j = k := by
        rcases hg with ⟨h1, -⟩ | ⟨h1, -⟩ <;> rcases hp with ⟨h2, -⟩ | ⟨h2, -⟩
        · simp only [Option.some.injEq] at h1 h2; omega
        · simp only [Option.some.injEq] at h1
          have := hpk j h2.symm
          omega
        · simp only [Option.some.injEq] at h2
          have := hgk i h1.symm
          omega
        · exfalso
          simp only at h1 h2
          rw [QueueFamilyIndices.isComplete, ← h1, ← h2] at hinc
          simp at hinc
      refine ⟨by omega, ?_, ?_⟩
      · rw [hmax, show k + 1 - k = 1 by omega, List.take_succ_cons, List.take_zero, hloop []]
        simp [hc]
      · intro n hn
        have hn0 : n = 0 := by omega
        subst hn0
        simpa [findQueueFamiliesLoop] using hinc
    · simp only [hc, if_false] at h
      have hc2 : next.isComplete = false := by simpa using hc
      obtain ⟨hle, htake, hshort⟩ := ih (k + 1) next hc2 hnextg hnextp i j h
      refine ⟨by omega, ?_, ?_⟩
      · rw [show max i j + 1 - k = (max i j + 1 - (k + 1)) + 1 by omega, List.take_succ_cons,
          hloop]
        simp only [hc, if_false]
        exact htake
      · intro n hn
        cases n with
        | zero => simpa [findQueueFamiliesLoop] using hinc
        | succ n =>
          rw [List.take_succ_cons, hloop]
          simp only [hc, if_false]
          exact hshort n (by omega)

/-- C15. For every list of queue families, the indices `findQueueFamilies`
returns are sound: a graphics index is a position of the list whose family has
the graphics bit, a present index a position whose family can present to the
surface.  When both indices `i` and `j` are found the scan stopped at position
`max i j`: the families after it play no part (the list cut after that position
gives the same result) and no shorter scan is complete.  A field is empty only
when the whole list was scanned and no family has that capability. -/
theorem findQueueFamilies_sound (device : PhysicalDevice) :
    (∀ i, (findQueueFamilies device).graphicsFamily = some i →
      i < device.queueFamilies.length ∧
        ∃ f, device.queueFamilies[i]? = some f ∧
          f.queueFlags &&& VK_QUEUE_GRAPHICS_BIT ≠ 0) ∧
    (∀ j, (findQueueFamilies device).presentFamily = some j →
      j < device.queueFamilies.length ∧
        ∃ f, device.queueFamilies[j]? = some f ∧ f.presentSupport = true) ∧
    (∀ i j, findQueueFamilies device = ⟨some i, some j⟩ →
      findQueueFamilies { device with queueFamilies := device.queueFamilies.take (max i j + 1) }
        = ⟨some i, some j⟩ ∧
      ∀ n, n ≤ max i j →
        (findQueueFamilies { device with queueFamilies := device.queueFamilies.take n }).isComplete
          = false) ∧
    ((findQueueFamilies device).graphicsFamily = none →
      ∀ f ∈ device.queueFamilies, f.queueFlags &&& VK_QUEUE_GRAPHICS_BIT = 0) ∧
    ((findQueueFamilies device).presentFamily = none →
      ∀ f ∈ device.queueFamilies, f.presentSupport = false) := by
  obtain ⟨hg, hp, hgn, hpn⟩ := findQueueFamiliesLoop_sound device.queueFamilies 0 {}
  refine ⟨?_, ?_, ?_, fun h => (hgn h).2, fun h => (hpn h).2⟩
  · intro i hi
    rcases hg i hi with h | ⟨-, f, hf, hcap⟩
    · cases h
    · simp only [Nat.sub_zero] at hf
      exact ⟨(List.getElem?_eq_some_iff.mp hf).1, f, hf, hcap⟩
  · intro j hj
    rcases hp j hj with h | ⟨-, f, hf, hcap⟩
    · cases h
    · simp only [Nat.sub_zero] at hf
      exact ⟨(List.getElem?_eq_some_iff.mp hf).1, f, hf, hcap⟩
  · intro i j h
    obtain ⟨-, htake, hshort⟩ := findQueueFamiliesLoop_stop device.queueFamilies 0 {} rfl
      (fun x hx => by cases hx) (fun x hx => by cases hx) i j h
    exact ⟨by simpa [findQueueFamilies] using htake,
      fun n hn => by simpa [findQueueFamilies] using hshort n (by omega)⟩

end ct
